import Mathlib

/-!
Verification of the activity / skill-registry subsystem of the `orb`
digital-being repository.  Python runtime values are shallowly embedded as
an inductive `Val`; the key-value memory store, the skill registry, the
image-generation skill and each activity `execute` method are translated
into executable Lean functions.  Exceptions are modelled with `Except`,
and the `try/except` boundary of every activity is an explicit catch
wrapper producing an error `ActivityResult`.
-/

namespace Orb

/-- Shallow embedding of the Python runtime values that flow through the
activities: `None`, booleans, numbers (ints and floats, both as `Rat`),
strings, lists and string-keyed dicts. -/
inductive Val where
  | none : Val
  | bool : Bool → Val
  | num : Rat → Val
  | str : String → Val
  | list : List Val → Val
  | dict : List (String × Val) → Val

/-- Python truthiness (`bool(v)`): `None`, `False`, `0`, `""`, `[]` and
`\x7b\x7d` are falsy, everything else truthy. -/
def Val.truthy : Val → Bool
  | .none => false
  | .bool b => b
  | .num q => q ≠ 0
  | .str s => s ≠ ""
  | .list xs => !xs.isEmpty
  | .dict d => !d.isEmpty

/-- Lookup of a key in an embedded dict body (first binding wins, as a
Python dict has unique keys). -/
def dlookup (d : List (String × Val)) (k : String) : Option Val :=
  (d.find? (fun kv => kv.1 == k)).map (fun kv => kv.2)

/-- Python `v.get(k, default)` on a dict; raises `AttributeError` when the
receiver is not a dict. -/
def Val.dgetD : Val → String → Val → Except String Val
  | .dict d, k, dflt => .ok ((dlookup d k).getD dflt)
  | _, _, _ => .error "AttributeError: object has no attribute get"

/-- Python `v.get(k)` on a dict (default `None`). -/
def Val.dget (v : Val) (k : String) : Except String Val :=
  v.dgetD k .none

/-- Python subscript `v[k]` on a dict; raises on a non-dict receiver or a
missing key. -/
def Val.item : Val → String → Except String Val
  | .dict d, k =>
      match dlookup d k with
      | some v => .ok v
      | Option.none => .error ("KeyError: " ++ k)
  | _, _ => .error "TypeError: object is not subscriptable"

/-- Python `v[k] = x` on a dict (replacing an existing binding, else
appending); raises on a non-dict receiver. -/
def Val.setItem : Val → String → Val → Except String Val
  | .dict d, k, x =>
      if d.any (fun kv => kv.1 == k) then
        .ok (.dict (d.map (fun kv => if kv.1 == k then (k, x) else kv)))
      else
        .ok (.dict (d ++ [(k, x)]))
  | _, _, _ => .error "TypeError: object does not support item assignment"

/-- Python iteration `for x in v`: lists yield elements, strings yield
one-character strings, dicts yield their keys; other values raise
`TypeError`. -/
def Val.iterate : Val → Except String (List Val)
  | .list xs => .ok xs
  | .str s => .ok (s.data.map (fun c => .str (String.mk [c])))
  | .dict d => .ok (d.map (fun kv => .str kv.1))
  | _ => .error "TypeError: object is not iterable"

/-- Numeric coercion used by Python comparison and arithmetic: ints,
floats and bools are numbers, everything else raises `TypeError`. -/
def Val.asNum : Val → Except String Rat
  | .num q => .ok q
  | .bool b => .ok (if b then 1 else 0)
  | _ => .error "TypeError: unsupported operand type"

/-- Simplified model of Python str() as used by f-string interpolation in
the activities.  It is exact on None, booleans, numbers and strings (the
only values interpolated on the paths the claims touch); containers get a
schematic rendering. -/
def Val.pyStr : Val → String
  | .none => "None"
  | .bool b => if b then "True" else "False"
  | .num q => toString q
  | .str s => s
  | .list _ => "[...]"
  | .dict _ => "dict"

/-- Modelled from the spec: the external memory store (framework.memory.
Memory, not part of src/) is an async key-value store; a state is the
list of live (key, value) bindings.  TTL-based expiry happens outside the
activities and is not part of any claim, so the ttl argument of store is
accepted and ignored. -/
def Memory := List (String × Val)

/-- Structural lookup: the binding currently held for a key, if any. -/
def Memory.lookup (m : Memory) (k : String) : Option Val :=
  (m.find? (fun kv => kv.1 == k)).map (fun kv => kv.2)

/-- Modelled from the spec: `get(key) -> value|None`. -/
def Memory.get (m : Memory) (k : String) : Val :=
  (m.lookup k).getD .none

/-- Modelled from the spec: `store(key, value, ttl)` binds the key to the
value, replacing any previous binding; the ttl (None meaning no expiry)
is ignored by the model. -/
def Memory.store (m : Memory) (k : String) (v : Val) (_ttl : Option Int) : Memory :=
  m.filter (fun kv => kv.1 ≠ k) ++ [(k, v)]

/-- Modelled from the spec: `delete(key)` removes the binding. -/
def Memory.delete (m : Memory) (k : String) : Memory :=
  m.filter (fun kv => kv.1 ≠ k)

/-- Modelled from the spec: outcome of one activity execution — success
flag, optional data payload, optional error message, optional metadata
(framework.activity_decorator.ActivityResult is not part of src/). -/
structure ActivityResult where
  success : Bool
  data : Val
  error : Option String
  metadata : Val

/-- Modelled from the spec: `ActivityResult.success_result(data)`. -/
def ActivityResult.success_result (d : Val) : ActivityResult :=
  ⟨true, d, Option.none, .none⟩

/-- Modelled from the spec: `ActivityResult.error_result(message)`. -/
def ActivityResult.error_result (e : String) : ActivityResult :=
  ⟨false, .none, some e, .none⟩

/-- Modelled from the spec: the SharedData context handed to execute — a
mapping-like object (or None, when a caller passes nothing), carrying
trigger metadata and per-invocation values. -/
def SharedData := Option (List (String × Val))

/-- Python `shared_data.get(key)`: raises AttributeError when shared_data
is None, otherwise returns the stored value or None. -/
def SharedData.get1 : SharedData → String → Except String Val
  | Option.none, _ => .error "AttributeError: NoneType object has no attribute get"
  | some m, k => .ok ((dlookup m k).getD .none)

/-- Python `shared_data.get(key, default)`. -/
def SharedData.getDflt : SharedData → String → Val → Except String Val
  | Option.none, _, _ => .error "AttributeError: NoneType object has no attribute get"
  | some m, k, d => .ok ((dlookup m k).getD d)

/-- Modelled from the spec: the three-argument `shared_data.get(namespace,
key, default)` used by the draw activity reads a key from a named
namespace of the context, falling back to the default. -/
def SharedData.getNS : SharedData → String → String → Val → Except String Val
  | Option.none, _, _, _ => .error "AttributeError: NoneType object has no attribute get"
  | some m, ns, k, d =>
      match dlookup m ns with
      | some (.dict mm) => .ok ((dlookup mm k).getD d)
      | _ => .ok d

/-- External-facing actions an activity can perform, recorded as a trace:
skill initialization attempts, chat completions, image generations, news
searches, social posts, composio calls, activity triggers and writes to
the shared context. -/
inductive Action where
  | skillInit (skill : String) (ok : Bool)
  | chatCall (prompt : String)
  | imageCall (prompt : String)
  | searchCall (query : String)
  | postCall (text : String)
  | composioCall (action : String)
  | triggerCall (name : String)
  | sharedSet (ns key : String)
deriving Repr, DecidableEq

/-- The external world an execution runs against: the clock, the
availability of each skill, and the responses of every outside collaborator
(social API, chat completion, news search, OpenAI image endpoint, composio,
and the Python stdlib float/json parsers, which are external to the
repository and therefore modelled as oracles). -/
structure Env where
  now : Rat
  xApiRegistered : Bool
  xApiInit : Bool
  postTweet : Val → Val → Except String Val
  chatInit : Bool
  chatCompletion : String → Except String String
  liteLlmInit : Bool
  liteLlmCompletion : String → Except String String
  serperInit : Bool
  searchNews : String → Int → Except String Val
  composio : String → Val → Except String Val
  imageApiKey : Except String (Option String)
  openaiImage : String → String → Except String String
  formatImagePrompt : Val → Val → Except String String
  imageStyle : Val → String
  baseStyle : String
  lighting : String
  composition : String
  mood : String
  randSeed : Int
  floatParse : String → Except String Rat
  jsonLoads : String → Except String Val
  ctime : Rat → String
  dbInit : Except String Unit
  recentActivities : Except String Val

/-- State of skills.skill_generate_image.ImageGenerationSkill: the config
fields (enabled, max_generations from max_generations_per_day,
supported_formats — every construction site in the repository passes
literals of these types), the mutable daily counter generations_count,
and the private \x5finitialized / \x5fapi_key fields.  At construction
generations_count is 0, initializedFlag is false and apiKey is None. -/
structure ImageGenerationSkill where
  enabled : Bool
  max_generations : Int
  supported_formats : List String
  generations_count : Int
  initializedFlag : Bool
  apiKey : Option String

/-- Constructor `ImageGenerationSkill(config)` with the three config
fields already extracted. -/
def ImageGenerationSkill.make (enabled : Bool) (max_generations : Int)
    (supported_formats : List String) : ImageGenerationSkill :=
  ⟨enabled, max_generations, supported_formats, 0, false, Option.none⟩

/-- Python falsiness of the fetched api key: None or the empty string. -/
def keyFalsy : Option String → Bool
  | Option.none => true
  | some s => s == ""

/-- `ImageGenerationSkill.initialize`: fetch the API key (the fetch may
raise, which the method catches and turns into False); a falsy key gives
False after storing it; otherwise the key is stored, the initialized flag
set, and True returned. -/
def ImageGenerationSkill.initStep (env : Env) (s : ImageGenerationSkill) :
    Bool × ImageGenerationSkill :=
  match env.imageApiKey with
  | .error _ => (false, s)
  | .ok k =>
      if keyFalsy k then (false, { s with apiKey := k })
      else (true, { s with apiKey := k, initializedFlag := true })

/-- `ImageGenerationSkill.can_generate`: requires the initialized flag,
the enabled flag, and generations_count < max_generations. -/
def ImageGenerationSkill.can_generate (s : ImageGenerationSkill) : Bool :=
  if !s.initializedFlag then false
  else if !s.enabled then false
  else if s.generations_count ≥ s.max_generations then false
  else true

/-- `ImageGenerationSkill._enhance_prompt`: appends the branding style
(content-type specific when a truthy content_type is given, else the base
style) and the common elements; the branding strings live in
config.branding and are supplied by the environment. -/
def ImageGenerationSkill.enhancePrompt (env : Env) (prompt : String)
    (content_type : Val) : String :=
  let style := if content_type.truthy then env.imageStyle content_type else env.baseStyle
  prompt ++ ", " ++ style ++ ", lighting: " ++ env.lighting ++ ", " ++
    env.composition ++ ", " ++ env.mood

/-- The `\x7b"success": False, "error": e\x7d` dict the skill returns on
every failure path. -/
def errDict (e : String) : Val :=
  .dict [("success", .bool false), ("error", .str e)]

/-- The part of `ImageGenerationSkill.generate_image` after the
initialization guard: the can_generate and format guards, then the try
block — template formatting, prompt enhancement, the OpenAI call (run in
an executor; any exception is caught and becomes a failure dict), and
only on a successful response the counter increment followed by the
success dict. -/
def ImageGenerationSkill.generateCore (env : Env) (s1 : ImageGenerationSkill)
    (prompt : String) (size : Int × Int) (format : String)
    (content_type : Val) (template_key : Val) (template_args : Val) :
    Val × ImageGenerationSkill :=
  if ! s1.can_generate then
    (errDict "Image generation is not available (disabled, limit reached, or not configured)", s1)
  else if ! (s1.supported_formats.contains format) then
    (errDict ("Unsupported format. Use: " ++ String.intercalate ", " s1.supported_formats), s1)
  else
    let promptE : Except String String :=
      if template_key.truthy && template_args.truthy then
        env.formatImagePrompt template_key template_args
      else .ok prompt
    match promptE with
    | .error e => (errDict e, s1)
    | .ok p =>
      let enhanced := ImageGenerationSkill.enhancePrompt env p content_type
      let size_str := toString size.1 ++ "x" ++ toString size.2
      match env.openaiImage enhanced size_str with
      | .error e => (errDict e, s1)
      | .ok url =>
        let s2 := { s1 with generations_count := s1.generations_count + 1 }
        let image_data : Val := .dict
          [("width", .num size.1), ("height", .num size.2),
           ("format", .str format), ("seed", .num env.randSeed),
           ("generation_id", .str ("gen_" ++ toString s2.generations_count)),
           ("url", .str url)]
        (.dict [("success", .bool true), ("image_data", image_data),
                ("metadata", .dict
                  [("prompt", .str p), ("enhanced_prompt", .str enhanced),
                   ("content_type", content_type),
                   ("generation_number", .num s2.generations_count)])], s2)

/-- `ImageGenerationSkill.generate_image`: the initialization guard
`if not self.\x5finitialized and not await self.initialize()` followed by
the core. -/
def ImageGenerationSkill.generate_image (env : Env) (s : ImageGenerationSkill)
    (prompt : String) (size : Int × Int) (format : String)
    (content_type : Val) (template_key : Val) (template_args : Val) :
    Val × ImageGenerationSkill :=
  match (if s.initializedFlag then (true, s) else ImageGenerationSkill.initStep env s) with
  | (false, s1) => (errDict "Image generation skill not initialized", s1)
  | (true, s1) =>
      ImageGenerationSkill.generateCore env s1 prompt size format
        content_type template_key template_args

/-- `ImageGenerationSkill.reset_counts`. -/
def ImageGenerationSkill.reset_counts (s : ImageGenerationSkill) : ImageGenerationSkill :=
  { s with generations_count := 0 }

/-- Mutable state threaded through one activity execution: the memory
store, the trace of external-facing actions performed so far, and the
state of the image-generation skill instance the activity uses. -/
structure EffState where
  mem : Memory
  trace : List Action
  img : ImageGenerationSkill

/-- Result of one step of an execution: either a value or a raised
exception, together with the state (Python state changes made before a
raise persist). -/
def EffR (α : Type) : Type := Except String α × EffState

/-- Sequencing of execution steps: a raised exception skips the rest of
the body and keeps the state at the point of the raise. -/
def eBind : EffR α → (α → EffState → EffR β) → EffR β
  | (.error e, s), _ => (.error e, s)
  | (.ok a, s), f => f a s

/-- Return a value without touching the state. -/
def eret (a : α) (s : EffState) : EffR α :=
  (.ok a, s)

/-- Raise an exception. -/
def eraise (e : String) (s : EffState) : EffR α :=
  (.error e, s)

/-- Lift a pure fallible computation. -/
def liftE (x : Except String α) (s : EffState) : EffR α :=
  (x, s)

/-- `await self.memory.get(key)`. -/
def memGetE (k : String) (s : EffState) : EffR Val :=
  (.ok (s.mem.get k), s)

/-- `await self.memory.store(key, value, ttl)`. -/
def memStoreE (k : String) (v : Val) (ttl : Option Int) (s : EffState) : EffR Unit :=
  (.ok (), { s with mem := s.mem.store k v ttl })

/-- `await self.memory.delete(key)`. -/
def memDeleteE (k : String) (s : EffState) : EffR Unit :=
  (.ok (), { s with mem := s.mem.delete k })

/-- Record an external-facing action whose outcome is the given value (an
exception raised by the collaborator propagates into the body). -/
def actR (a : Action) (x : Except String α) (s : EffState) : EffR α :=
  (x, { s with trace := s.trace ++ [a] })

/-- The activity boundary: `async def execute` wraps its whole body in
try/except Exception and converts any exception into
`ActivityResult.error_result(str(e))`. -/
def runActivity (body : EffState → EffR ActivityResult) (s : EffState) :
    ActivityResult × EffState :=
  match body s with
  | (.ok r, s') => (r, s')
  | (.error e, s') => (ActivityResult.error_result e, s')

/-- A helper-method boundary: try/except that logs and returns a default
value instead of propagating. -/
def catchDefault (body : EffState → EffR α) (dflt : α) (s : EffState) : EffR α :=
  match body s with
  | (.ok a, s') => (.ok a, s')
  | (.error _, s') => (.ok dflt, s')

/-- First-match lookup in an association list (the model of a Python dict
with non-Val payloads). -/
def alistGet (l : List (String × α)) (k : String) : Option α :=
  (l.find? (fun kv => kv.1 == k)).map (fun kv => kv.2)

/-- Dict assignment `d[k] = v`: replace the binding if the key is
present, else append it. -/
def alistSet (l : List (String × α)) (k : String) (v : α) : List (String × α) :=
  if l.any (fun kv => kv.1 == k) then
    l.map (fun kv => if kv.1 == k then (k, v) else kv)
  else l ++ [(k, v)]

/-- skills.SkillRegistry, abstracted over the type of skill instances so
that instance identity is expressible: the \x5fskill_instances dict. -/
structure SkillRegistry (α : Type) where
  skill_instances : List (String × α)

/-- `SkillRegistry.register_alias(alias_name, original_name)`: when the
original is registered, bind the alias to the identical instance; when it
is not, log a warning and leave the registry unchanged (no exception). -/
def SkillRegistry.register_alias (reg : SkillRegistry α)
    (alias_name original_name : String) : SkillRegistry α :=
  match alistGet reg.skill_instances original_name with
  | some inst => ⟨alistSet reg.skill_instances alias_name inst⟩
  | Option.none => reg

/-- `SkillRegistry.__getattr__(name)`: return the registered instance or
raise AttributeError. -/
def SkillRegistry.getSkill (reg : SkillRegistry α) (name : String) : Except String α :=
  match alistGet reg.skill_instances name with
  | some inst => .ok inst
  | Option.none => .error ("AttributeError: no skill named " ++ name ++ " is registered")

/-- Python subscript `v[0]`: head of a list (IndexError when empty),
first character of a string, TypeError otherwise. -/
def Val.index0 : Val → Except String Val
  | .list [] => .error "IndexError: list index out of range"
  | .list (x :: _) => .ok x
  | .str s =>
      match s.data with
      | [] => .error "IndexError: string index out of range"
      | c :: _ => .ok (.str (String.mk [c]))
  | _ => .error "TypeError: object is not subscriptable"

/-- Python `v.pop(0)` as used on the queue value: removes and discards
the head of a list; any non-list receiver raises. -/
def Val.popHead : Val → Except String (List Val)
  | .list [] => .error "IndexError: pop from empty list"
  | .list (_ :: rest) => .ok rest
  | _ => .error "TypeError: object has no attribute pop with index"

/-- Python `sep.join(parts)`: every part must already be a string. -/
def joinParts (sep : String) (parts : List Val) : Except String String :=
  (parts.mapM (fun p =>
    match p with
    | Val.str s => Except.ok s
    | _ => Except.error "TypeError: sequence item expected str instance")).map
    (String.intercalate sep)

/-- The category_to_hashtag table of PostTweetActivity (and, identically,
PostLinkedInActivity). -/
def category_to_hashtag : List (String × String) :=
  [("emotional_support", "#CaregiverSupport"),
   ("practical_tips", "#CaregivingTips"),
   ("resources", "#CareResources"),
   ("health_advice", "#CaregiverHealth"),
   ("self_care", "#SelfCare"),
   ("respite_care", "#RespiteCare"),
   ("technology", "#CaregivingTech"),
   ("community", "#CaregiverCommunity")]

/-- Membership test `category in category_to_hashtag` for one iterated
category value: string keys are looked up, other hashable values are
simply not keys, and unhashable values (lists, dicts) raise. -/
def hashtagFor : Val → Except String (Option String)
  | .str cs => .ok (alistGet category_to_hashtag cs)
  | .list _ => .error "TypeError: unhashable type list"
  | .dict _ => .error "TypeError: unhashable type dict"
  | _ => .ok Option.none

/-- `PostTweetActivity._generate_news_tweet(article)`: title, url and
categories with defaults, hashtags for known categories capped at two,
then the space-joined tweet parts with the default hashtag when no
category matched. -/
def PostTweetActivity.generate_news_tweet (article : Val) : Except String String := do
  let title ← article.dgetD "title" (.str "")
  let url ← article.dgetD "url" (.str "")
  let categories ← article.dgetD "categories" (.list [])
  let cats ← categories.iterate
  let tags ← cats.mapM hashtagFor
  let hashtags := (tags.filterMap id).take 2
  let parts1 : List Val :=
    if title.truthy && url.truthy then [.str ("📰 " ++ title.pyStr), url] else []
  let parts2 : List Val :=
    if !hashtags.isEmpty then parts1 ++ [.str (String.intercalate " " hashtags)] else parts1
  let parts3 : List Val :=
    if hashtags.isEmpty then parts2 ++ [.str "#CaregiverSupport"] else parts2
  joinParts " " parts3

/-- Body of `PostTweetActivity.execute` (inside the try): initialize the
x_api skill (an unregistered skill raises AttributeError out of the
registry lookup), then either post the head of the social_share_queue and
on success pop it — re-storing the remainder or deleting the emptied key —
or fall back to shared_data tweet_text. -/
def PostTweetActivity.executeBody (env : Env) (sd : SharedData) (s : EffState) :
    EffR ActivityResult :=
  if ! env.xApiRegistered then
    eraise "AttributeError: no skill named x_api_skill is registered" s
  else
  eBind (actR (.skillInit "x_api" env.xApiInit) (.ok env.xApiInit) s) fun ok s =>
  if ! ok then eret (ActivityResult.error_result "X API skill not available") s
  else
  eBind (memGetE "social_share_queue" s) fun shareable s =>
  if shareable.truthy then
    eBind (liftE shareable.index0 s) fun article s =>
    eBind (liftE (PostTweetActivity.generate_news_tweet article) s) fun tweet_text s =>
    eBind (liftE (article.dget "image_url") s) fun imgUrl s =>
    let media : Val := if imgUrl.truthy then .list [imgUrl] else .none
    eBind (actR (.postCall tweet_text) (env.postTweet (.str tweet_text) media) s) fun post_result s =>
    eBind (liftE (post_result.dget "success") s) fun succ s =>
    if succ.truthy then
      eBind (liftE shareable.popHead s) fun rest s =>
      eBind (if (Val.list rest).truthy then
               memStoreE "social_share_queue" (.list rest) (some 43200) s
             else memDeleteE "social_share_queue" s) fun _ s =>
      eBind (liftE (post_result.dget "tweet_url") s) fun turl s =>
      eret (ActivityResult.success_result (.dict
        [("tweet_url", turl), ("content", .str tweet_text),
         ("type", .str "news"), ("article", article)])) s
    else
      eBind (liftE (post_result.dget "error") s) fun perr s =>
      eret (ActivityResult.error_result ("Failed to post tweet: " ++ perr.pyStr)) s
  else
    eBind (liftE (sd.get1 "tweet_text") s) fun tweet_text s =>
    eBind (liftE (sd.get1 "media_urls") s) fun media s =>
    if ! tweet_text.truthy then
      eret (ActivityResult.error_result "No tweet content provided") s
    else
    eBind (actR (.postCall tweet_text.pyStr) (env.postTweet tweet_text media) s) fun post_result s =>
    eBind (liftE (post_result.dget "success") s) fun succ s =>
    if ! succ.truthy then
      eBind (liftE (post_result.dget "error") s) fun perr s =>
      eret (ActivityResult.error_result ("Failed to post tweet: " ++ perr.pyStr)) s
    else
    eBind (liftE (post_result.dget "tweet_url") s) fun turl s =>
    eret (ActivityResult.success_result (.dict
      [("tweet_url", turl), ("content", tweet_text), ("type", .str "regular")])) s

/-- `PostTweetActivity.execute`: the body behind the activity boundary. -/
def PostTweetActivity.execute (env : Env) (sd : SharedData) (s : EffState) :
    ActivityResult × EffState :=
  runActivity (PostTweetActivity.executeBody env sd) s

/-- A concrete happy-path environment used by the witness statements. -/
def envHappy : Env where
  now := 1000000
  xApiRegistered := true
  xApiInit := true
  postTweet := fun _ _ => .ok (.dict [("success", .bool true), ("tweet_url", .str "https://x/1")])
  chatInit := true
  chatCompletion := fun _ => .ok "chat-response"
  liteLlmInit := true
  liteLlmCompletion := fun _ => .ok "lite-response"
  serperInit := false
  searchNews := fun _ _ => .ok (.dict [("success", .bool false)])
  composio := fun _ _ => .ok (.dict [("success", .bool true)])
  imageApiKey := .ok (some "key")
  openaiImage := fun _ _ => .ok "https://img/1"
  formatImagePrompt := fun _ _ => .ok "formatted"
  imageStyle := fun _ => "style"
  baseStyle := "base"
  lighting := "soft"
  composition := "balanced"
  mood := "warm"
  randSeed := 4321
  floatParse := fun _ => .error "ValueError"
  jsonLoads := fun _ => .error "JSONDecodeError"
  ctime := fun _ => "Thu Jan  1 00:00:00 1970"
  dbInit := .ok ()
  recentActivities := .ok (.list [])

/-- A freshly-constructed image skill instance as every construction site
in the repository makes one. -/
def imgFresh : ImageGenerationSkill :=
  ImageGenerationSkill.make true 50 ["png", "jpg"]

/-- Execution state with the given memory, an empty trace, and a fresh
image skill. -/
def stOf (m : Memory) : EffState :=
  ⟨m, [], imgFresh⟩

/-- The one-element queue article of the end-to-end scenario. -/
def article0 : Val :=
  .dict [("title", .str "T"), ("url", .str "u"), ("image_url", .str "i")]

/-- Contiguous-occurrence check used to model Python string membership. -/
def charsContain (needle : List Char) : List Char → Bool
  | [] => needle.isEmpty
  | c :: rest => needle.isPrefixOf (c :: rest) || charsContain needle rest

/-- Python string membership `sub in s`. -/
def pyIn (sub s : String) : Bool :=
  charsContain sub.data s.data

/-- Equality test of a value against a string literal (Python `==`, which
never raises). -/
def valEqStr (v : Val) (t : String) : Bool :=
  match v with
  | .str u => u == t
  | _ => false

/-- Python `v.lower()`: only strings have it. -/
def valLower : Val → Except String String
  | .str u => .ok u.toLower
  | _ => .error "AttributeError: object has no attribute lower"

/-- `FetchNewsActivity.default_topics`. -/
def FetchNewsActivity.default_topics : List String :=
  ["caregiver support resources", "caregiver wellness tips",
   "elderly care innovations", "caregiver mental health",
   "respite care services"]

/-- Body of `FetchNewsActivity._analyze_article_relevance` (inside its
try): a failed chat initialization yields 0.0 immediately; otherwise the
prompt is built from the title and description subscripts (raising on a
malformed article), the completion requested, and the response parsed by
the inner try — a float parse failure yields 0.0, a parsed score is
clamped to [0, 1]. -/
def FetchNewsActivity.analyzeBody (env : Env) (article : Val) : Except String Rat := do
  if ! env.chatInit then
    return 0
  let title ← article.item "title"
  let descr ← article.item "description"
  let response ← env.chatCompletion
    ("Analyze relevance: " ++ title.pyStr ++ " / " ++ descr.pyStr)
  match env.floatParse response.trim with
  | .error _ => return 0
  | .ok score => return (min (max score 0) 1)

/-- `FetchNewsActivity._analyze_article_relevance`: any exception in the
body is caught and becomes 0.0. -/
def FetchNewsActivity.analyze_article_relevance (env : Env) (article : Val) : Rat :=
  match FetchNewsActivity.analyzeBody env article with
  | .ok r => r
  | .error _ => 0

/-- Body of `FetchNewsActivity._categorize_article`: failed chat
initialization yields []; otherwise the completion response is split on
commas and stripped. -/
def FetchNewsActivity.categorizeBody (env : Env) (article : Val) : Except String (List String) := do
  if ! env.chatInit then
    return []
  let title ← article.item "title"
  let descr ← article.item "description"
  let response ← env.chatCompletion
    ("Categorize: " ++ title.pyStr ++ " / " ++ descr.pyStr)
  return ((response.splitOn ",").map String.trim)

/-- `FetchNewsActivity._categorize_article`: exceptions become []. -/
def FetchNewsActivity.categorize_article (env : Env) (article : Val) : List String :=
  match FetchNewsActivity.categorizeBody env article with
  | .ok r => r
  | .error _ => []

/-- One iteration of the per-article processing loop of
`FetchNewsActivity.execute`: sets relevance_score, categories, topic and
processed_timestamp on the article (raising on a non-dict article). -/
def FetchNewsActivity.processArticle (env : Env) (topic : String) (article : Val) :
    Except String Val := do
  let a1 ← article.setItem "relevance_score"
    (.num (FetchNewsActivity.analyze_article_relevance env article))
  let a2 ← a1.setItem "categories"
    (.list ((FetchNewsActivity.categorize_article env article).map Val.str))
  let a3 ← a2.setItem "topic" (.str topic)
  a3.setItem "processed_timestamp" (.num env.now)

/-- The per-topic search of `FetchNewsActivity.execute`: a successful
search contributes its processed articles, an unsuccessful one
contributes nothing. -/
def FetchNewsActivity.collectTopic (env : Env) (topic : String) : Except String (List Val) := do
  let result ← env.searchNews topic 3
  let succ ← result.dget "success"
  if succ.truthy then
    let articles ← result.dgetD "articles" (.list [])
    let arts ← articles.iterate
    arts.mapM (FetchNewsActivity.processArticle env topic)
  else
    return []

/-- The whole topic loop. -/
def FetchNewsActivity.collectAll (env : Env) (topics : List String) : Except String (List Val) := do
  let ls ← topics.mapM (FetchNewsActivity.collectTopic env)
  return ls.flatten

/-- The relevance filter `article['relevance_score'] >= 0.7` over the
collected articles. -/
def FetchNewsActivity.filterRelevant : List Val → Except String (List Val)
  | [] => .ok []
  | a :: rest => do
      let sc ← a.item "relevance_score"
      let q ← sc.asNum
      let tail ← FetchNewsActivity.filterRelevant rest
      if q ≥ (7 : Rat)/10 then return (a :: tail) else return tail

/-- Stable insertion of a keyed article into a descending-sorted list:
the element goes after every element with a greater-or-equal key, which
is exactly the stable descending order of Python list.sort with
reverse=True. -/
def insertDesc (p : Rat × Val) : List (Rat × Val) → List (Rat × Val)
  | [] => [p]
  | q :: rest => if q.1 < p.1 then p :: q :: rest else q :: insertDesc p rest

/-- Stable descending sort of keyed articles. -/
def sortDescKeyed (l : List (Rat × Val)) : List (Rat × Val) :=
  l.foldl (fun acc p => insertDesc p acc) []

/-- `relevant_articles.sort(key=..., reverse=True)`: key extraction then
the stable descending sort. -/
def FetchNewsActivity.sortByRelevance (arts : List Val) : Except String (List Val) := do
  let keyed ← arts.mapM (fun a => do
    let sc ← a.item "relevance_score"
    let q ← sc.asNum
    return (q, a))
  return (sortDescKeyed keyed).map (fun p => p.2)

/-- The inner category loop of `_store_articles_in_memory`: stores the
article under news_<category> for each of its categories. -/
def FetchNewsActivity.storeCatLoop (a : Val) : List Val → EffState → EffR Unit
  | [], s => eret () s
  | c :: cs, s =>
      eBind (memStoreE ("news_" ++ c.pyStr) a (some 86400) s) fun _ s =>
      FetchNewsActivity.storeCatLoop a cs s

/-- The outer article loop of `_store_articles_in_memory`. -/
def FetchNewsActivity.storeLoop : List Val → EffState → EffR Unit
  | [], s => eret () s
  | a :: rest, s =>
      eBind (liftE (a.item "categories") s) fun cats s =>
      eBind (liftE cats.iterate s) fun catl s =>
      eBind (FetchNewsActivity.storeCatLoop a catl s) fun _ s =>
      FetchNewsActivity.storeLoop rest s

/-- `FetchNewsActivity._store_articles_in_memory`: the category stores,
then the full list under recent_news; its try/except swallows any
exception (keeping the stores made before the raise). -/
def FetchNewsActivity.store_articles_in_memory (articles : List Val) (s : EffState) : EffR Unit :=
  catchDefault (fun s =>
    eBind (FetchNewsActivity.storeLoop articles s) fun _ s =>
    memStoreE "recent_news" (.list articles) (some 86400) s) () s

/-- The `any(topic in cat.lower() for cat in ...)` generator of
`_prepare_conversation_response`, with Python short-circuiting: a match
stops the iteration before later elements can raise. -/
def FetchNewsActivity.anyTopic (topicL : String) : List Val → Except String Bool
  | [] => .ok false
  | c :: cs => do
      let cl ← valLower c
      if pyIn topicL cl then return true else FetchNewsActivity.anyTopic topicL cs

/-- The article filter of `_prepare_conversation_response`. -/
def FetchNewsActivity.filterByTopic (topicL : String) : List Val → Except String (List Val)
  | [] => .ok []
  | a :: rest => do
      let cats ← a.item "categories"
      let catl ← cats.iterate
      let hit ← FetchNewsActivity.anyTopic topicL catl
      let tail ← FetchNewsActivity.filterByTopic topicL rest
      if hit then return (a :: tail) else return tail

/-- `FetchNewsActivity._prepare_conversation_response`: takes the top two
topic-matching articles and stores them under
conversation_articles_<conversation_id>; its try/except swallows any
exception. -/
def FetchNewsActivity.prepare_conversation_response (articles : List Val) (context : Val)
    (s : EffState) : EffR Unit :=
  catchDefault (fun s =>
    eBind (liftE (context.dgetD "topic" (.str "")) s) fun topic s =>
    eBind (liftE (valLower topic) s) fun topicL s =>
    eBind (liftE (FetchNewsActivity.filterByTopic topicL articles) s) fun hits s =>
    if ! (hits.take 2).isEmpty then
      eBind (liftE (context.dget "conversation_id") s) fun cid s =>
      memStoreE ("conversation_articles_" ++ cid.pyStr) (.list (hits.take 2)) (some 3600) s
    else eret () s) () s

/-- The shareability filter of `_prepare_social_content`:
relevance_score >= 0.8 and a category among practical_tips, resources,
self_care (the and short-circuits, the membership tests never raise). -/
def FetchNewsActivity.shareFilter : List Val → Except String (List Val)
  | [] => .ok []
  | a :: rest => do
      let sc ← a.item "relevance_score"
      let q ← sc.asNum
      if q ≥ (8 : Rat)/10 then
        let cats ← a.item "categories"
        let catl ← cats.iterate
        let hit := catl.any (fun c => valEqStr c "practical_tips" ||
          valEqStr c "resources" || valEqStr c "self_care")
        let tail ← FetchNewsActivity.shareFilter rest
        if hit then return (a :: tail) else return tail
      else
        FetchNewsActivity.shareFilter rest

/-- `FetchNewsActivity._prepare_social_content`: stores the top three
shareable articles under social_share_queue (when there are any); its
try/except swallows any exception. -/
def FetchNewsActivity.prepare_social_content (articles : List Val) (s : EffState) : EffR Unit :=
  catchDefault (fun s =>
    eBind (liftE (FetchNewsActivity.shareFilter articles) s) fun sharable s =>
    if ! (sharable.take 3).isEmpty then
      memStoreE "social_share_queue" (.list (sharable.take 3)) (some 43200) s
    else eret () s) () s

/-- The topic-adjustment logic at the top of `FetchNewsActivity.execute`. -/
def FetchNewsActivity.topicsFor (trigger_type trigger_context : Val) :
    Except String (List String) := do
  if valEqStr trigger_type "conversation" then
    let conversation_topic ← trigger_context.dget "topic"
    if conversation_topic.truthy then
      return FetchNewsActivity.default_topics ++ ["caregiver " ++ conversation_topic.pyStr]
    else
      return FetchNewsActivity.default_topics
  else if valEqStr trigger_type "content_creation" then
    return (FetchNewsActivity.default_topics.filter
      (fun t => pyIn "tips" t || pyIn "resources" t))
  else
    return FetchNewsActivity.default_topics

/-- Body of `FetchNewsActivity.execute` (inside the try): trigger data,
topic adjustment, the serper gate, the search-and-process loop, the
relevance filter and sort, the memory stores, and the trigger-specific
actions. -/
def FetchNewsActivity.executeBody (env : Env) (sd : SharedData) (s : EffState) :
    EffR ActivityResult :=
  eBind (liftE (sd.getDflt "trigger_type" (.str "schedule")) s) fun trigger_type s =>
  eBind (liftE (sd.getDflt "trigger_context" (.dict [])) s) fun trigger_context s =>
  eBind (liftE (FetchNewsActivity.topicsFor trigger_type trigger_context) s) fun topics s =>
  eBind (actR (.skillInit "serper_api" env.serperInit) (.ok env.serperInit) s) fun ok s =>
  if ! ok then eret (ActivityResult.error_result "Failed to initialize Serper API skill") s
  else
  eBind (liftE (FetchNewsActivity.collectAll env topics) s) fun all_articles s =>
  eBind (liftE (FetchNewsActivity.filterRelevant all_articles) s) fun relevant0 s =>
  eBind (liftE (FetchNewsActivity.sortByRelevance relevant0) s) fun relevant s =>
  eBind (FetchNewsActivity.store_articles_in_memory relevant s) fun _ s =>
  eBind (if valEqStr trigger_type "conversation" then
           eBind (FetchNewsActivity.prepare_conversation_response relevant trigger_context s)
             fun _ s => eret ["prepared_conversation_response"] s
         else if valEqStr trigger_type "content_creation" then
           eBind (FetchNewsActivity.prepare_social_content relevant s)
             fun _ s => eret ["prepared_social_content"] s
         else eret [] s) fun actions_taken s =>
  eret (ActivityResult.success_result (.dict
    [("articles", .list relevant),
     ("topics", .list (topics.map Val.str)),
     ("count", .num relevant.length),
     ("trigger_type", trigger_type),
     ("actions_taken", .list ((actions_taken : List String).map Val.str))])) s

/-- `FetchNewsActivity.execute`: the body behind the activity boundary. -/
def FetchNewsActivity.execute (env : Env) (sd : SharedData) (s : EffState) :
    ActivityResult × EffState :=
  runActivity (FetchNewsActivity.executeBody env sd) s

/-- Chat-skill initialization through the registry
(`registry.chat_skill.initialize()`), recorded in the trace. -/
def chatInitE (env : Env) (s : EffState) : EffR Bool :=
  (.ok env.chatInit, { s with trace := s.trace ++ [Action.skillInit "chat_skill" env.chatInit] })

/-- Lite-LLM-skill initialization through the registry. -/
def liteLlmInitE (env : Env) (s : EffState) : EffR Bool :=
  (.ok env.liteLlmInit, { s with trace := s.trace ++ [Action.skillInit "lite_llm_skill" env.liteLlmInit] })

/-- Image-generation-skill initialization: runs the skill's own
initialize on the instance state, recorded in the trace. -/
def imgInitE (env : Env) (s : EffState) : EffR Bool :=
  let r := ImageGenerationSkill.initStep env s.img
  (.ok r.1, { s with
                img := r.2,
                trace := s.trace ++ [Action.skillInit "image_generation" r.1] })

/-- An image generation call on the activity's skill instance, recorded
in the trace (generate_image itself never raises). -/
def genImageE (env : Env) (prompt : String) (size : Int × Int) (format : String)
    (content_type template_key template_args : Val) (s : EffState) : EffR Val :=
  let r := ImageGenerationSkill.generate_image env s.img prompt size format
    content_type template_key template_args
  (.ok r.1, { s with img := r.2, trace := s.trace ++ [Action.imageCall prompt] })

/-- A chat completion on the chat skill, recorded in the trace. -/
def chatCallE (env : Env) (prompt : String) (s : EffState) : EffR String :=
  (env.chatCompletion prompt, { s with trace := s.trace ++ [Action.chatCall prompt] })

/-- A chat completion on the lite-LLM skill, recorded in the trace. -/
def liteLlmCallE (env : Env) (prompt : String) (s : EffState) : EffR String :=
  (env.liteLlmCompletion prompt, { s with trace := s.trace ++ [Action.chatCall prompt] })

/-- The timestamp filter comprehension of
`PersonalizedCaregiverSupportActivity._get_recent_tweets`:
`tweet.get("timestamp", 0) > cutoff_time` (raising on a non-dict element
or a non-numeric timestamp). -/
def filterRecent (cutoff : Rat) : List Val → Except String (List Val)
  | [] => .ok []
  | t :: rest => do
      let ts ← t.dgetD "timestamp" (.num 0)
      let q ← ts.asNum
      let tail ← filterRecent cutoff rest
      if q > cutoff then return (t :: tail) else return tail

/-- Body of `_get_recent_tweets(hours)` (inside its try): read
recent_tweets (or []), compute the cutoff, filter. -/
def PersonalizedCaregiverSupportActivity.getRecentTweetsBody (env : Env) (hours : Rat)
    (s : EffState) : EffR (List Val) :=
  eBind (memGetE "recent_tweets" s) fun rt s =>
  let rt := if rt.truthy then rt else .list []
  let cutoff := env.now - hours * 3600
  eBind (liftE rt.iterate s) fun tweets s =>
  liftE (filterRecent cutoff tweets) s

/-- `PersonalizedCaregiverSupportActivity._get_recent_tweets`: exceptions
are caught and become []. -/
def PersonalizedCaregiverSupportActivity.get_recent_tweets (env : Env) (hours : Rat)
    (s : EffState) : EffR (List Val) :=
  catchDefault (PersonalizedCaregiverSupportActivity.getRecentTweetsBody env hours) [] s

/-- The dedup loop of `PersonalizedCaregiverSupportActivity.execute`:
returns true on the first recent tweet with
`current_time - tweet.get("timestamp", 0) < min_time_between_posts`. -/
def dedupCheck (now : Rat) : List Val → Except String Bool
  | [] => .ok false
  | t :: rest => do
      let ts ← t.dgetD "timestamp" (.num 0)
      let q ← ts.asNum
      if now - q < 3600 then return true else dedupCheck now rest

/-- The image-url extraction of
`PersonalizedCaregiverSupportActivity.execute`: `if image_result and
image_result.get("success")` then `image_result.get("image_data",
\x7b\x7d).get("url")`, else None. -/
def extractImageUrl (image_result : Val) : Except String Val := do
  if image_result.truthy then
    let succ ← image_result.dget "success"
    if succ.truthy then
      let image_data ← image_result.dgetD "image_data" (.dict [])
      image_data.dget "url"
    else return .none
  else return .none

/-- Body of `PersonalizedCaregiverSupportActivity.execute` (inside the
try): the dedup short-circuit, the three skill gates, the chat and image
calls, the fetch_news trigger (run as the fetch_news activity itself on
the shared memory), the resource recommendation and the optional resource
visualization. -/
def PersonalizedCaregiverSupportActivity.executeBody (env : Env) (sd : SharedData)
    (s : EffState) : EffR ActivityResult :=
  eBind (PersonalizedCaregiverSupportActivity.get_recent_tweets env 4 s) fun recent s =>
  eBind (liftE (dedupCheck env.now recent) s) fun tooSoon s =>
  if tooSoon then
    eret (ActivityResult.success_result (.dict
      [("skipped", .bool true), ("reason", .str "Too soon since last tweet")])) s
  else
  eBind (chatInitE env s) fun ok s =>
  if ! ok then eret (ActivityResult.error_result "Chat skill not available") s
  else
  eBind (liftE (sd.getDflt "past_emotion" (.str "overwhelmed")) s) fun past_emotion s =>
  let prompt := "I remember last time you mentioned feeling " ++ past_emotion.pyStr ++
    ". How are you doing today?"
  eBind (chatCallE env prompt s) fun chat_response s =>
  eBind (imgInitE env s) fun ok s =>
  if ! ok then eret (ActivityResult.error_result "Image generation skill not available") s
  else
  eBind (liftE (sd.getDflt "preferred_scenario" (.str "beach")) s) fun scenario s =>
  eBind (genImageE env "" (1024, 1024) "png" (.str "wellness") (.str "stress_relief")
    (.dict [("scene", scenario), ("style", .none)]) s) fun image_result s =>
  eBind (liftE (extractImageUrl image_result) s) fun image_url s =>
  eBind (liteLlmInitE env s) fun ok s =>
  if ! ok then eret (ActivityResult.error_result "Lite LLM skill not available") s
  else
  eBind (liftE (sd.getDflt "resource_topic" (.str "caregiver support")) s) fun resource_topic s =>
  eBind (liftE (sd.getDflt "conversation_id" (.str (Val.pyStr (.num env.now)))) s) fun cid s =>
  eBind (actR (.triggerCall "fetch_news") (.ok ()) s) fun _ s =>
  (fun s =>
    eBind (memGetE ("conversation_articles_" ++ cid.pyStr) s) fun recent_articles s =>
    let resource_prompt :=
      if recent_articles.truthy then
        "Based on these recent articles and resources: " ++ recent_articles.pyStr ++
        " provide a helpful summary and recommendations for " ++ resource_topic.pyStr
      else "Recommend resources for " ++ resource_topic.pyStr
    eBind (liteLlmCallE env resource_prompt s) fun resource_response s =>
    eBind (if recent_articles.truthy then
             eBind (genImageE env "" (1024, 1024) "png" (.str "resources")
               (.str "resource_visual")
               (.dict [("topic", resource_topic), ("style", .none)]) s) fun resource_image s =>
             liftE (extractImageUrl resource_image) s
           else eret Val.none s) fun resource_image_url s =>
    eret (ActivityResult.success_result (.dict
      [("chat_response", .str chat_response),
       ("image_url", image_url),
       ("resource_response", .str resource_response),
       ("resource_image_url", resource_image_url),
       ("articles", recent_articles)])) s)
  ((FetchNewsActivity.execute env
      (some [("trigger_type", .str "conversation"),
             ("trigger_context", .dict
               [("topic", resource_topic), ("conversation_id", cid)])]) s).2)

/-- `PersonalizedCaregiverSupportActivity.execute`: the body behind the
activity boundary. -/
def PersonalizedCaregiverSupportActivity.execute (env : Env) (sd : SharedData)
    (s : EffState) : ActivityResult × EffState :=
  runActivity (PersonalizedCaregiverSupportActivity.executeBody env sd) s

/-- Body of `PersonalizedCaregiverCheckin.execute` (inside the try): the
chat gate and check-in completion, the image gate and visualization, the
lite-LLM gate and resource recommendation. -/
def PersonalizedCaregiverCheckin.executeBody (env : Env) (sd : SharedData)
    (s : EffState) : EffR ActivityResult :=
  eBind (chatInitE env s) fun ok s =>
  if ! ok then eret (ActivityResult.error_result "Chat skill not available") s
  else
  eBind (liftE (sd.getDflt "last_feeling" (.str "overwhelmed")) s) fun past_feeling s =>
  let chat_prompt := "I remember last time you mentioned feeling " ++ past_feeling.pyStr ++
    ". How are you doing today?"
  eBind (chatCallE env chat_prompt s) fun chat_response s =>
  eBind (imgInitE env s) fun ok s =>
  if ! ok then eret (ActivityResult.error_result "Image generation skill not available") s
  else
  eBind (genImageE env "A serene beach or peaceful forest" (1024, 1024) "png"
    Val.none Val.none Val.none s) fun visualization_response s =>
  eBind (liteLlmInitE env s) fun ok s =>
  if ! ok then eret (ActivityResult.error_result "Lite LLM skill not available") s
  else
  eBind (liteLlmCallE env
    "Curate a list of resources for caregiver support, including articles, support groups, and professional services."
    s) fun resources_response s =>
  eret (ActivityResult.success_result (.dict
    [("chat_response", .str chat_response),
     ("visualization_response", visualization_response),
     ("resources", .str resources_response)])) s

/-- `PersonalizedCaregiverCheckin.execute`: the body behind the activity
boundary. -/
def PersonalizedCaregiverCheckin.execute (env : Env) (sd : SharedData) (s : EffState) :
    ActivityResult × EffState :=
  runActivity (PersonalizedCaregiverCheckin.executeBody env sd) s

/-- Body of `PersonalizedEmotionalCheckinsActivity.execute` (inside the
try): the chat gate, the DigitalBeing construction and
get_recent_activities read (framework collaborators, modelled as
oracles; their result is unused by the source), the fixed prompt and the
message result. -/
def PersonalizedEmotionalCheckinsActivity.executeBody (env : Env) (_sd : SharedData)
    (s : EffState) : EffR ActivityResult :=
  eBind (chatInitE env s) fun ok s =>
  if ! ok then eret (ActivityResult.error_result "Chat skill not available") s
  else
  eBind (liftE env.dbInit s) fun _ s =>
  eBind (liftE env.recentActivities s) fun _ s =>
  eBind (chatCallE env
    "Based on recent activities, create a personalized message for a caregiver acknowledging their stress levels and offering support."
    s) fun response s =>
  eret (ActivityResult.success_result (.dict [("message", .str response)])) s

/-- `PersonalizedEmotionalCheckinsActivity.execute`. -/
def PersonalizedEmotionalCheckinsActivity.execute (env : Env) (sd : SharedData)
    (s : EffState) : ActivityResult × EffState :=
  runActivity (PersonalizedEmotionalCheckinsActivity.executeBody env sd) s

/-- Body of `PersonalizedEmotionalSupportActivity.execute` (inside the
try): chat gate and check-in, image gate and visual encouragement,
lite-LLM gate and resource navigation; the data reads image_url from the
generation result with the default "No image generated". -/
def PersonalizedEmotionalSupportActivity.executeBody (env : Env) (_sd : SharedData)
    (s : EffState) : EffR ActivityResult :=
  eBind (chatInitE env s) fun ok s =>
  if ! ok then eret (ActivityResult.error_result "Chat skill not available") s
  else
  eBind (chatCallE env
    "That sounds incredibly challenging. I'm here for you. How are you feeling today?"
    s) fun chat_response s =>
  eBind (imgInitE env s) fun ok s =>
  if ! ok then eret (ActivityResult.error_result "Image generation skill not available") s
  else
  eBind (genImageE env "You are strong and resilient. Calming landscape." (1024, 1024)
    "png" Val.none Val.none Val.none s) fun image_response s =>
  eBind (liteLlmInitE env s) fun ok s =>
  if ! ok then eret (ActivityResult.error_result "Lite LLM skill not available") s
  else
  eBind (liteLlmCallE env "Guide me to credible resources for caregiver support." s)
    fun resource_response s =>
  eBind (liftE (image_response.dgetD "image_url" (.str "No image generated")) s) fun iu s =>
  eret (ActivityResult.success_result (.dict
    [("chat_response", .str chat_response),
     ("image_url", iu),
     ("resources", .str resource_response)])) s

/-- `PersonalizedEmotionalSupportActivity.execute`. -/
def PersonalizedEmotionalSupportActivity.execute (env : Env) (sd : SharedData)
    (s : EffState) : ActivityResult × EffState :=
  runActivity (PersonalizedEmotionalSupportActivity.executeBody env sd) s

/-- The mood_prompts table of `DrawActivity._generate_prompt`. -/
def mood_prompts : List (String × String) :=
  [("happy", "a sunny landscape with vibrant colors"),
   ("neutral", "a peaceful scene with balanced composition"),
   ("sad", "a rainy day with muted colors")]

/-- `mood_prompts.get(mood, mood_prompts["neutral"])` for the iterated
mood value: strings are looked up, other hashable values miss, and
unhashable values raise. -/
def moodLookup : Val → Except String String
  | .str m => .ok ((alistGet mood_prompts m).getD "a peaceful scene with balanced composition")
  | .list _ => .error "TypeError: unhashable type list"
  | .dict _ => .error "TypeError: unhashable type dict"
  | _ => .ok "a peaceful scene with balanced composition"

/-- `DrawActivity._generate_prompt(shared_data)`: mood and personality
from the state namespace of shared_data (with defaults when shared_data
is None), the mood base prompt, and the personality-driven suffixes. -/
def DrawActivity.generate_prompt (sd : SharedData) : Except String String := do
  let (personality, mood) ←
    (match sd with
     | Option.none => .ok ((Val.dict []), Val.str "neutral")
     | some _ => do
         let state ← sd.getNS "state" "current_state" (.dict [])
         let personality ← state.dgetD "personality" (.dict [])
         let mood ← state.dgetD "mood" (.str "neutral")
         pure (personality, mood))
  let base ← moodLookup mood
  let creat ← personality.dgetD "creativity" (.num 0)
  let cq ← creat.asNum
  let base := if cq > (7 : Rat)/10 then base ++ " with surreal elements" else base
  let curio ← personality.dgetD "curiosity" (.num 0)
  let uq ← curio.asNum
  let base := if uq > (7 : Rat)/10 then base ++ " featuring unexpected details" else base
  return "Digital artwork of " ++ base ++ ", digital art style"

/-- Body of `DrawActivity.execute` (inside the try): the image
initialization gate, the forced enabled flag, the can_generate gate, the
prompt, the generation, and on success the shared_data store of the
drawing and the directly-constructed success ActivityResult. -/
def DrawActivity.executeBody (env : Env) (sd : SharedData) (s : EffState) :
    EffR ActivityResult :=
  eBind (imgInitE env s) fun ok s =>
  if ! ok then
    eret (ActivityResult.error_result "Failed to initialize image generation skill") s
  else
  let s := { s with img := { s.img with enabled := true } }
  if ! s.img.can_generate then
    eret (ActivityResult.error_result "Image generation is not available at this time") s
  else
  eBind (liftE (DrawActivity.generate_prompt sd) s) fun prompt s =>
  eBind (genImageE env prompt (1024, 1024) "png" Val.none Val.none Val.none s)
    fun result s =>
  eBind (liftE (result.dget "success") s) fun succ s =>
  if succ.truthy then
    eBind (liftE (result.item "image_data") s) fun image_data s =>
    eBind (liftE (image_data.item "generation_id") s) fun gen_id s =>
    eBind (if sd.isSome then
             (fun s => (.ok (), { s with trace := s.trace ++
               [Action.sharedSet "memory" ("drawing_" ++ gen_id.pyStr)] })  : EffState → EffR Unit) s
           else eret () s) fun _ s =>
    eret ⟨true,
      .dict [("generation_id", gen_id), ("prompt", .str prompt), ("image_data", image_data)],
      Option.none,
      .dict [("size", .list [.num 1024, .num 1024]), ("format", .str "png")]⟩ s
  else
    eBind (liftE (result.dgetD "error" (.str "Unknown error")) s) fun err s =>
    eret (ActivityResult.error_result err.pyStr) s

/-- `DrawActivity.execute`. -/
def DrawActivity.execute (env : Env) (sd : SharedData) (s : EffState) :
    ActivityResult × EffState :=
  runActivity (DrawActivity.executeBody env sd) s

/-- Python `len(v)` for strings, lists and dicts; other values raise. -/
def valLen : Val → Except String Int
  | .str s => .ok s.length
  | .list xs => .ok xs.length
  | .dict d => .ok d.length
  | _ => .error "TypeError: object has no len"

/-- Python slicing `v[:3]` for lists and strings. -/
def pyTake3 : Val → Except String Val
  | .list xs => .ok (.list (xs.take 3))
  | .str s => .ok (.str (String.mk (s.data.take 3)))
  | _ => .error "TypeError: object is not subscriptable"

mutual

/-- Python `==` on embedded values (never raises).  One simplification:
Python compares dicts as unordered key-value maps, while this model
compares them in binding order; the repository only ever compares url
strings, where the two coincide. -/
def valEqB : Val → Val → Bool
  | .none, .none => true
  | .bool a, .bool b => a == b
  | .num a, .num b => a == b
  | .str a, .str b => a == b
  | .list xs, .list ys => valEqList xs ys
  | .dict xs, .dict ys => valEqDict xs ys
  | _, _ => false

/-- Elementwise equality of embedded lists. -/
def valEqList : List Val → List Val → Bool
  | [], [] => true
  | x :: xs, y :: ys => valEqB x y && valEqList xs ys
  | _, _ => false

/-- Bindingwise equality of embedded dicts. -/
def valEqDict : List (String × Val) → List (String × Val) → Bool
  | [], [] => true
  | (k1, v1) :: xs, (k2, v2) :: ys => k1 == k2 && valEqB v1 v2 && valEqDict xs ys
  | _, _ => false

end

/-- `PostLinkedInActivity._get_content_to_share`: the news queue head
formatted as a news record, else the recent_tweets head as a tweet
record, else None. -/
def PostLinkedInActivity.get_content_to_share (s : EffState) : EffR Val :=
  eBind (memGetE "social_share_queue" s) fun news_queue s =>
  eBind (liftE (do
    if news_queue.truthy then
      let n ← valLen news_queue
      if n > 0 then
        let article ← news_queue.index0
        let title ← article.dget "title"
        let descr ← article.dget "description"
        let url ← article.dget "url"
        let iurl ← article.dget "image_url"
        let cats ← article.dgetD "categories" (.list [])
        let topic ← article.dgetD "topic" (.str "caregiving")
        return some (Val.dict
          [("source", .str "news"), ("type", .str "article"), ("title", title),
           ("description", descr), ("url", url), ("image_url", iurl),
           ("categories", cats), ("topic", topic)])
      else return Option.none
    else return Option.none) s) fun newsContent s =>
  match newsContent with
  | some v => eret v s
  | Option.none =>
      eBind (memGetE "recent_tweets" s) fun recent s =>
      eBind (liftE (do
        if recent.truthy then
          let n ← valLen recent
          if n > 0 then
            let tweet ← recent.index0
            let content ← tweet.dget "content"
            let iurl ← tweet.dget "image_url"
            let topic ← tweet.dgetD "topic" (.str "caregiving")
            return (Val.dict
              [("source", .str "twitter"), ("type", .str "tweet"),
               ("content", content), ("image_url", iurl), ("topic", topic)])
          else return Val.none
        else return Val.none) s) fun v s => eret v s

/-- `PostLinkedInActivity._format_news_post`. -/
def PostLinkedInActivity.format_news_post (article : Val) : Except String String := do
  let cats ← article.dgetD "categories" (.list [])
  let catl ← cats.iterate
  let tags ← catl.mapM hashtagFor
  let hashtags := (tags.filterMap id).take 2
  let hashtags := if hashtags.isEmpty then ["#CaregiverSupport", "#Healthcare"] else hashtags
  let title ← article.dget "title"
  let descr ← article.dget "description"
  let url ← article.dget "url"
  let parts1 := if title.truthy then ["📰 " ++ title.pyStr] else []
  let parts2 := if descr.truthy then parts1 ++ ["\n\n" ++ descr.pyStr] else parts1
  let parts3 := if url.truthy then parts2 ++ ["\n\nRead more: " ++ url.pyStr] else parts2
  let parts4 := parts3 ++ ["\n\n" ++ String.intercalate " " hashtags]
  return String.join parts4

/-- `PostLinkedInActivity._format_tweet_post`. -/
def PostLinkedInActivity.format_tweet_post (tweet_data : Val) : Except String String := do
  let content ← tweet_data.dgetD "content" (.str "")
  return content.pyStr ++ "\n\n" ++
    "What are your thoughts on this? Share your caregiving experiences in the comments below. " ++
    "#CaregiverSupport #Healthcare #GiveCare"

/-- `PostLinkedInActivity._format_linkedin_post`. -/
def PostLinkedInActivity.format_linkedin_post (content_data : Val) : Except String String := do
  let src ← content_data.item "source"
  if valEqStr src "news" then PostLinkedInActivity.format_news_post content_data
  else PostLinkedInActivity.format_tweet_post content_data

/-- Body of `PostLinkedInActivity._update_share_queue` (inside its try):
re-read the queue (or []), pop the head, re-store the remainder or
delete the emptied key. -/
def PostLinkedInActivity.updateShareQueueBody (s : EffState) : EffR Unit :=
  eBind (memGetE "social_share_queue" s) fun q s =>
  let queue := if q.truthy then q else .list []
  if queue.truthy then
    eBind (liftE queue.popHead s) fun rest s =>
    if (Val.list rest).truthy then
      memStoreE "social_share_queue" (.list rest) (some 43200) s
    else
      memDeleteE "social_share_queue" s
  else eret () s

/-- `PostLinkedInActivity._update_share_queue`: its try/except swallows
any exception. -/
def PostLinkedInActivity.update_share_queue (s : EffState) : EffR Unit :=
  catchDefault PostLinkedInActivity.updateShareQueueBody () s

/-- The `x.get("success", x.get("successfull"))` check of
PostLinkedInActivity. -/
def composioSuccess (x : Val) : Except String Val := do
  let dflt ← x.dget "successfull"
  x.dgetD "success" dflt

/-- Body of `PostLinkedInActivity.execute` (inside the try): company
verification, content selection, image selection or generation, post
formatting and creation, then the queue update for news content. -/
def PostLinkedInActivity.executeBody (env : Env) (_sd : SharedData) (s : EffState) :
    EffR ActivityResult :=
  eBind (actR (.composioCall "Get Company Info")
    (env.composio "Get Company Info"
      (.dict [("organization_urn", .str "urn:li:organization:106542185")])) s)
    fun company_info s =>
  eBind (liftE (composioSuccess company_info) s) fun ok s =>
  if ! ok.truthy then
    eret (ActivityResult.error_result
      "Failed to verify LinkedIn company access for urn:li:organization:106542185") s
  else
  eBind (PostLinkedInActivity.get_content_to_share s) fun content_data s =>
  if ! content_data.truthy then
    eret (ActivityResult.error_result "No content available to share") s
  else
  eBind (imgInitE env s) fun ok s =>
  if ! ok then eret (ActivityResult.error_result "Image generation skill not available") s
  else
  eBind (liftE (content_data.dget "image_url") s) fun ciu s =>
  eBind (if ciu.truthy then
           eBind (liftE (content_data.item "image_url") s) fun iu s => eret (some iu) s
         else
           eBind (liftE (content_data.dgetD "topic" (.str "caregiving support")) s) fun topic s =>
           eBind (genImageE env "" (1024, 1024) "png" (.str "resources")
             (.str "resource_visual")
             (.dict [("topic", topic), ("style", .none)]) s) fun image_result s =>
           eBind (liftE (image_result.dget "success") s) fun gok s =>
           if ! gok.truthy then eret Option.none s
           else
           eBind (liftE (do
             let idata ← image_result.dgetD "image_data" (.dict [])
             idata.dget "url") s) fun iu s =>
           if ! iu.truthy then eret (some Val.none) s else eret (some iu) s)
    fun imageChoice s =>
  match imageChoice with
  | Option.none => eret (ActivityResult.error_result "Failed to generate image") s
  | some iu =>
    if ! iu.truthy then
      eret (ActivityResult.error_result "No image URL in generation result") s
    else
    eBind (liftE (PostLinkedInActivity.format_linkedin_post content_data) s)
      fun post_content s =>
    eBind (actR (.composioCall "Create LinkedIn Post")
      (env.composio "Create LinkedIn Post"
        (.dict [("organization_urn", .str "urn:li:organization:106542185"),
                ("text", .str post_content), ("media_url", iu)])) s) fun post_result s =>
    eBind (liftE (composioSuccess post_result) s) fun pok s =>
    if ! pok.truthy then
      eBind (liftE (post_result.dgetD "error" (.str "Unknown error")) s) fun err s =>
      eret (ActivityResult.error_result ("Failed to create LinkedIn post: " ++ err.pyStr)) s
    else
    eBind (liftE (content_data.dget "source") s) fun src s =>
    eBind (if valEqStr src "news" then PostLinkedInActivity.update_share_queue s
           else eret () s) fun _ s =>
    eBind (liftE (do
      let pd ← post_result.dgetD "data" (.dict [])
      pd.dget "id") s) fun post_id s =>
    eBind (liftE (content_data.dget "type") s) fun ctype s =>
    eret (ActivityResult.success_result (.dict
      [("post_id", post_id), ("content", .str post_content), ("image_url", iu),
       ("organization_urn", .str "urn:li:organization:106542185"),
       ("content_source", src), ("content_type", ctype)])) s

/-- `PostLinkedInActivity.execute`. -/
def PostLinkedInActivity.execute (env : Env) (sd : SharedData) (s : EffState) :
    ActivityResult × EffState :=
  runActivity (PostLinkedInActivity.executeBody env sd) s

/-- The category list of PromoteGiveCareContentActivity. -/
def givecareCategories : List String :=
  ["Product", "Advocacy", "Resources", "PersonalWellness", "Community"]

/-- The category scan of `_extract_category`: first listed category whose
lowercase form occurs in the lowercase url or title, else General. -/
def findCat : List String → String → String → String
  | [], _, _ => "General"
  | c :: cs, u, t => if pyIn c.toLower u || pyIn c.toLower t then c else findCat cs u t

/-- `PromoteGiveCareContentActivity._extract_category`. -/
def PromoteGiveCareContentActivity.extract_category (article : Val) : Except String String := do
  let url ← article.dgetD "url" (.str "")
  let urlL ← valLower url
  let title ← article.dgetD "title" (.str "")
  let titleL ← valLower title
  return findCat givecareCategories urlL titleL

/-- The processing loop of `_fetch_new_articles`: tag each article with
its extracted category (never empty, so every article is kept). -/
def PromoteGiveCareContentActivity.fetchLoop : List Val → Except String (List Val)
  | [] => .ok []
  | a :: rest => do
      let cat ← PromoteGiveCareContentActivity.extract_category a
      let a1 ← a.setItem "category" (.str cat)
      let tail ← PromoteGiveCareContentActivity.fetchLoop rest
      return a1 :: tail

/-- `PromoteGiveCareContentActivity._fetch_new_articles`: search the
GiveCare news site, keep categorized articles; its try/except turns any
exception into []. -/
def PromoteGiveCareContentActivity.fetch_new_articles (env : Env) : List Val :=
  match (do
    let result ← env.searchNews "site:https://www.givecareapp.com/news" 10
    let succ ← result.dget "success"
    if ! succ.truthy then return ([] : List Val)
    else do
      let articles ← result.dgetD "articles" (.list [])
      let arts ← articles.iterate
      PromoteGiveCareContentActivity.fetchLoop arts) with
  | .ok l => l
  | .error _ => []

/-- The `any(pa["url"] == article["url"] for pa in promoted_articles)`
generator, with Python short-circuiting. -/
def anyUrlEq (a : Val) : List Val → Except String Bool
  | [] => .ok false
  | pa :: ps => do
      let pu ← pa.item "url"
      let au ← a.item "url"
      if valEqB pu au then return true else anyUrlEq a ps

/-- The new-promotable filter of `PromoteGiveCareContentActivity.execute`. -/
def promotableFilter (promotedL : List Val) : List Val → Except String (List Val)
  | [] => .ok []
  | a :: rest => do
      let hit ← anyUrlEq a promotedL
      let tail ← promotableFilter promotedL rest
      if ! hit then return (a :: tail) else return tail

/-- The eligibility filter of `_select_article_for_repost`: not promoted
in the last seven days and promoted fewer than five times (the and
short-circuits). -/
def eligibleFilter (now : Rat) : List Val → Except String (List Val)
  | [] => .ok []
  | a :: rest => do
      let lp ← a.dgetD "last_promoted_at" (.num 0)
      let lpq ← lp.asNum
      if now - lpq ≥ 7 * 24 * 3600 then
        let pc ← a.dgetD "promotion_count" (.num 0)
        let pcq ← pc.asNum
        let tail ← eligibleFilter now rest
        if pcq < 5 then return (a :: tail) else return tail
      else
        eligibleFilter now rest

/-- The evaluation loop of `_select_article_for_repost`: the prompt
building (whose subscripts and ctime argument can raise, outside the
inner try), then the inner try around the completion and the float parse
— any failure there just continues the loop. -/
def PromoteGiveCareContentActivity.bestLoop (env : Env) :
    List Val → Val → Rat → Except String Val
  | [], best, _ => .ok best
  | a :: rest, best, bestScore => do
      let t ← a.item "title"
      let d ← a.item "description"
      let c ← a.item "category"
      let fp ← a.item "first_promoted_at"
      let fpq ← fp.asNum
      let pc ← a.dgetD "promotion_count" (.num 1)
      let prompt := "Evaluate repost: " ++ t.pyStr ++ " / " ++ d.pyStr ++ " / " ++
        c.pyStr ++ " / " ++ env.ctime fpq ++ " / " ++ pc.pyStr
      match (do
        let resp ← env.chatCompletion prompt
        env.floatParse resp.trim : Except String Rat) with
      | .error _ => PromoteGiveCareContentActivity.bestLoop env rest best bestScore
      | .ok score =>
          if score > bestScore then
            PromoteGiveCareContentActivity.bestLoop env rest a score
          else
            PromoteGiveCareContentActivity.bestLoop env rest best bestScore

/-- `PromoteGiveCareContentActivity._select_article_for_repost`: filter
eligible articles, fall back to the first eligible when the chat skill
cannot evaluate, else pick the best-scored article (None when nothing is
eligible or every evaluation failed). -/
def PromoteGiveCareContentActivity.select_article_for_repost (env : Env)
    (promotedL : List Val) : Except String Val := do
  let eligible ← eligibleFilter env.now promotedL
  match eligible with
  | [] => return .none
  | e0 :: _ =>
      if ! env.chatInit then return e0
      else PromoteGiveCareContentActivity.bestLoop env eligible .none (-1)

/-- `PromoteGiveCareContentActivity._generate_default_promotion_content`:
its subscripts raise on a malformed article (also when it is invoked from
an except handler, in which case that exception propagates to the
activity boundary). -/
def PromoteGiveCareContentActivity.default_promotion_content (article : Val)
    (ptype : String) : Except String Val := do
  let pfx := if ptype == "new" then "📰 New from GiveCare: " else "📚 Must-read from GiveCare: "
  let title ← article.item "title"
  let cat ← article.item "category"
  let url ← article.item "url"
  let iurl ← article.dget "image_url"
  return .dict
    [("tweet_text", .str (pfx ++ title.pyStr)),
     ("hashtags", .list [.str "#CaregiverSupport", .str "#GiveCare",
       .str ("#" ++ cat.pyStr)]),
     ("url", url), ("image_url", iurl)]

/-- `PromoteGiveCareContentActivity._generate_promotion_content`: the
custom generation (chat gate falling back to the default content, the
json parse of the response with the subscript and slice of its fields),
where every failure path of the try lands in the default content. -/
def PromoteGiveCareContentActivity.generate_promotion_content (env : Env) (article : Val)
    (ptype : String) : Except String Val :=
  match (do
    if ! env.chatInit then
      PromoteGiveCareContentActivity.default_promotion_content article ptype
    else do
      let t ← article.item "title"
      let d ← article.item "description"
      let c ← article.item "category"
      let resp ← env.chatCompletion ("Generate social content: " ++ t.pyStr ++ " / " ++
        d.pyStr ++ " / " ++ c.pyStr ++ " / " ++ ptype)
      match (do
        let content ← env.jsonLoads resp
        let tweet ← content.item "tweet"
        let tags ← content.item "hashtags"
        let tags3 ← pyTake3 tags
        let url ← article.item "url"
        let iurl ← article.dget "image_url"
        return Val.dict [("tweet_text", tweet), ("hashtags", tags3),
          ("url", url), ("image_url", iurl)] : Except String Val) with
      | .ok v => .ok v
      | .error _ => PromoteGiveCareContentActivity.default_promotion_content article ptype) with
  | .ok v => .ok v
  | .error _ => PromoteGiveCareContentActivity.default_promotion_content article ptype

/-- `PromoteGiveCareContentActivity._queue_for_social_sharing`: builds
the tweet content from the promotion fields (the hashtag join raising on
non-string hashtags) and stores a fresh one-element list under
social_share_queue. -/
def PromoteGiveCareContentActivity.queue_for_social_sharing (env : Env)
    (article promotion_content : Val) (s : EffState) : EffR Unit :=
  eBind (liftE (promotion_content.item "tweet_text") s) fun twt s =>
  eBind (liftE (promotion_content.item "url") s) fun purl s =>
  eBind (liftE (promotion_content.item "hashtags") s) fun htags s =>
  eBind (liftE htags.iterate s) fun htlist s =>
  eBind (liftE (joinParts " " htlist) s) fun joined s =>
  let tweet_content := twt.pyStr ++ " " ++ purl.pyStr ++ " " ++ joined
  eBind (liftE (article.item "title") s) fun ttl s =>
  eBind (liftE (article.item "url") s) fun aurl s =>
  eBind (liftE (promotion_content.dget "image_url") s) fun iurl s =>
  eBind (liftE (article.item "category") s) fun cat s =>
  memStoreE "social_share_queue" (.list
    [.dict [("content", .str tweet_content), ("title", ttl), ("url", aurl),
            ("image_url", iurl), ("category", cat),
            ("queued_at", .num env.now), ("type", .str "givecare_promotion")]])
    (some 43200) s

/-- The repost branch of the promotion-history update: bump
promotion_count and stamp last_promoted_at on every entry matching the
promoted url. -/
def repostUpdate (env : Env) (aurl : Val) : List Val → Except String (List Val)
  | [] => .ok []
  | pa :: rest => do
      let pu ← pa.item "url"
      if valEqB pu aurl then
        let pc ← pa.dgetD "promotion_count" (.num 1)
        let pcq ← pc.asNum
        let pa1 ← pa.setItem "promotion_count" (.num (pcq + 1))
        let pa2 ← pa1.setItem "last_promoted_at" (.num env.now)
        let tail ← repostUpdate env aurl rest
        return pa2 :: tail
      else
        let tail ← repostUpdate env aurl rest
        return pa :: tail

/-- Body of `PromoteGiveCareContentActivity.execute` (inside the try). -/
def PromoteGiveCareContentActivity.executeBody (env : Env) (_sd : SharedData)
    (s : EffState) : EffR ActivityResult :=
  eBind (actR (.skillInit "serper_api" env.serperInit) (.ok env.serperInit) s) fun ok s =>
  if ! ok then eret (ActivityResult.error_result "Failed to initialize Serper API skill") s
  else
  let new_articles := PromoteGiveCareContentActivity.fetch_new_articles env
  eBind (memGetE "givecare_promoted_articles" s) fun pv s =>
  let promoted := if pv.truthy then pv else .list []
  eBind (liftE promoted.iterate s) fun promotedL s =>
  eBind (liftE (promotableFilter promotedL new_articles) s) fun new_promotable s =>
  eBind (liftE (match new_promotable with
    | a :: _ => .ok (a, some "new")
    | [] => do
        let a ← PromoteGiveCareContentActivity.select_article_for_repost env promotedL
        if a.truthy then pure (a, some "repost") else pure (a, Option.none)) s)
    fun choice s =>
  let article := choice.1
  if ! article.truthy then
    eret (ActivityResult.success_result (.dict
      [("status", .str "no_action"),
       ("reason", .str "No suitable content for promotion at this time")])) s
  else
  let ptype := (choice.2).getD "repost"
  eBind (liftE (PromoteGiveCareContentActivity.generate_promotion_content env article ptype) s)
    fun promotion_content s =>
  eBind (PromoteGiveCareContentActivity.queue_for_social_sharing env article
    promotion_content s) fun _ s =>
  eBind (liftE (do
    if ptype == "new" then
      let a1 ← article.setItem "first_promoted_at" (.num env.now)
      let a2 ← a1.setItem "promotion_count" (.num 1)
      pure (a2, promotedL ++ [a2])
    else do
      let aurl ← article.item "url"
      let updated ← repostUpdate env aurl promotedL
      let pc ← article.dgetD "promotion_count" (.num 1)
      let pcq ← pc.asNum
      let a1 ← article.setItem "promotion_count" (.num (pcq + 1))
      let a2 ← a1.setItem "last_promoted_at" (.num env.now)
      pure (a2, updated) : Except String (Val × List Val)) s) fun upd s =>
  eBind (memStoreE "givecare_promoted_articles" (.list upd.2) Option.none s) fun _ s =>
  eret (ActivityResult.success_result (.dict
    [("status", .str "success"), ("promotion_type", .str ptype),
     ("article", upd.1), ("promotion_content", promotion_content)])) s

/-- `PromoteGiveCareContentActivity.execute`. -/
def PromoteGiveCareContentActivity.execute (env : Env) (sd : SharedData) (s : EffState) :
    ActivityResult × EffState :=
  runActivity (PromoteGiveCareContentActivity.executeBody env sd) s

/-- Filtering out a key leaves no match for it. -/
theorem find_filtered_self (m : Memory) (k : String) :
    List.find? (fun kv => kv.1 == k) (m.filter (fun kv => kv.1 ≠ k)) = Option.none := by
  rw [List.find?_eq_none]
  intro x hx
  have := List.of_mem_filter hx
  simp at this ⊢
  exact this

/-- Filtering out one key does not change the first match for another. -/
theorem find_filtered_ne (m : Memory) (k k' : String) (h : k' ≠ k) :
    List.find? (fun kv => kv.1 == k') (m.filter (fun kv => kv.1 ≠ k)) =
    List.find? (fun kv => kv.1 == k') m := by
  induction m with
  | nil => rfl
  | cons kv m ih =>
      rw [List.filter_cons]
      by_cases hk : kv.1 = k
      · have hne : ¬ ((fun kv : String × Val => kv.1 == k') kv = true) := by
          simp [hk]
          intro hc
          exact h hc.symm
        rw [if_neg (by simp [hk]),
          @List.find?_cons_of_neg _ (fun kv : String × Val => kv.1 == k') kv m hne]
        exact ih
      · rw [if_pos (by simp [hk])]
        by_cases hb : ((fun kv : String × Val => kv.1 == k') kv = true)
        · rw [@List.find?_cons_of_pos _ (fun kv : String × Val => kv.1 == k') kv _ hb,
            @List.find?_cons_of_pos _ (fun kv : String × Val => kv.1 == k') kv m hb]
        · rw [@List.find?_cons_of_neg _ (fun kv : String × Val => kv.1 == k') kv _ hb,
            @List.find?_cons_of_neg _ (fun kv : String × Val => kv.1 == k') kv m hb]
          exact ih

/-- Deleting a key removes its binding. -/
theorem Memory.lookup_delete (m : Memory) (k : String) :
    (m.delete k).lookup k = Option.none := by
  unfold Memory.delete Memory.lookup
  rw [find_filtered_self]
  rfl

/-- Deleting a key leaves other keys untouched. -/
theorem Memory.lookup_delete_other (m : Memory) (k k' : String) (h : k' ≠ k) :
    (m.delete k).lookup k' = m.lookup k' := by
  unfold Memory.delete Memory.lookup
  rw [find_filtered_ne m k k' h]

/-- A store binds its key to the stored value. -/
theorem Memory.lookup_store (m : Memory) (k : String) (v : Val) (ttl : Option Int) :
    (m.store k v ttl).lookup k = some v := by
  unfold Memory.store Memory.lookup
  rw [List.find?_append, find_filtered_self]
  rw [List.find?_cons_of_pos _ (by simp)]
  rfl

/-- A store leaves other keys untouched. -/
theorem Memory.lookup_store_other (m : Memory) (k k' : String) (v : Val)
    (ttl : Option Int) (h : k' ≠ k) :
    (m.store k v ttl).lookup k' = m.lookup k' := by
  unfold Memory.store Memory.lookup
  rw [List.find?_append, find_filtered_ne m k k' h]
  have hne : ¬ ((fun kv : String × Val => kv.1 == k') (k, v) = true) := by
    simp
    intro hc
    exact h hc.symm
  rw [show List.find? (fun kv : String × Val => kv.1 == k') [(k, v)] = Option.none from
    @List.find?_cons_of_neg _ (fun kv : String × Val => kv.1 == k') (k, v) [] hne]
  cases hb : List.find? (fun kv : String × Val => kv.1 == k') m with
  | some x => rfl
  | none => rfl

/-- Claim C5: when memory holds social_share_queue as a one-element list
containing an article (a dict) whose generated tweet succeeds at the
external post call, PostTweetActivity.execute deletes the
social_share_queue key from memory and returns success=True with data
containing type="news" and the original article. -/
theorem post_a_tweet_news_end_to_end
    (env : Env) (sd : SharedData) (s : EffState) (d : List (String × Val))
    (tw : String) (prd : List (String × Val))
    (hreg : env.xApiRegistered = true) (hini : env.xApiInit = true)
    (hq : s.mem.lookup "social_share_queue" = some (.list [.dict d]))
    (htw : PostTweetActivity.generate_news_tweet (.dict d) = .ok tw)
    (hpost : ∀ media, env.postTweet (.str tw) media = .ok (.dict prd))
    (hsucc : dlookup prd "success" = some (.bool true)) :
    (PostTweetActivity.execute env sd s).1.success = true ∧
    (PostTweetActivity.execute env sd s).1.data.dget "type" = .ok (.str "news") ∧
    (PostTweetActivity.execute env sd s).1.data.dget "article" = .ok (.dict d) ∧
    ((PostTweetActivity.execute env sd s).2.mem.lookup "social_share_queue") = Option.none := by
  have hget : s.mem.get "social_share_queue" = .list [.dict d] := by
    simp [Memory.get, hq]
  simp only [dlookup] at hsucc
  simp only [PostTweetActivity.execute, runActivity, PostTweetActivity.executeBody,
    hreg, hini, Bool.not_true, Bool.false_eq_true, if_false, actR, eBind, eret, liftE,
    memGetE, memDeleteE, memStoreE, hget, Val.truthy, Val.index0, htw, Val.dget, Val.dgetD,
    hpost, Val.popHead, hsucc, dlookup]
  simp [Val.dgetD, dlookup, ActivityResult.success_result, Memory.lookup_delete]

/-- Witness for C5: the concrete one-article scenario of the spec, with
the happy-path environment; the queue key is gone and the result carries
the news type and the original article. -/
theorem post_a_tweet_news_end_to_end_witness :
    (PostTweetActivity.execute envHappy (some [])
      (stOf [("social_share_queue", .list [article0])])).1.success = true ∧
    (PostTweetActivity.execute envHappy (some [])
      (stOf [("social_share_queue", .list [article0])])).1.data.dget "type" =
      .ok (.str "news") ∧
    (PostTweetActivity.execute envHappy (some [])
      (stOf [("social_share_queue", .list [article0])])).1.data.dget "article" =
      .ok article0 ∧
    ((PostTweetActivity.execute envHappy (some [])
      (stOf [("social_share_queue", .list [article0])])).2.mem.lookup
      "social_share_queue") = Option.none :=
  post_a_tweet_news_end_to_end envHappy (some [])
    (stOf [("social_share_queue", .list [article0])])
    [("title", .str "T"), ("url", .str "u"), ("image_url", .str "i")]
    "📰 T u #CaregiverSupport"
    [("success", .bool true), ("tweet_url", .str "https://x/1")]
    rfl rfl rfl rfl (fun _ => rfl) rfl

/-- Claim C6: when memory has no social_share_queue key and shared_data
carries no tweet_text value, PostTweetActivity.execute returns an
ActivityResult with success=False and error "No tweet content provided". -/
theorem post_a_tweet_no_content_error
    (env : Env) (m : List (String × Val)) (s : EffState)
    (hreg : env.xApiRegistered = true) (hini : env.xApiInit = true)
    (hq : s.mem.lookup "social_share_queue" = Option.none)
    (ht : dlookup m "tweet_text" = Option.none) :
    (PostTweetActivity.execute env (some m) s).1.success = false ∧
    (PostTweetActivity.execute env (some m) s).1.error = some "No tweet content provided" := by
  have hget : s.mem.get "social_share_queue" = Val.none := by
    simp [Memory.get, hq]
  simp only [PostTweetActivity.execute, runActivity, PostTweetActivity.executeBody,
    hreg, hini, Bool.not_true, Bool.false_eq_true, if_false, actR, eBind, eret, liftE,
    memGetE, hget, Val.truthy, SharedData.get1, ht]
  simp [ActivityResult.error_result]

/-- Witness for C6: empty memory and an empty shared_data mapping. -/
theorem post_a_tweet_no_content_error_witness :
    (PostTweetActivity.execute envHappy (some []) (stOf [])).1.success = false ∧
    (PostTweetActivity.execute envHappy (some []) (stOf [])).1.error =
      some "No tweet content provided" :=
  post_a_tweet_no_content_error envHappy [] (stOf []) rfl rfl rfl rfl

/-- Claim C4: popping the head of the social_share_queue list (both in
PostTweetActivity.execute after a successful post and in
PostLinkedInActivity._update_share_queue) re-stores exactly the tail —
the former head removed, all other elements preserved in order — and
deletes the key instead of storing an empty list when the tail is
empty. -/
theorem share_queue_pop_semantics :
    (∀ (s : EffState) (a : Val) (rest : List Val),
       s.mem.lookup "social_share_queue" = some (.list (a :: rest)) →
       ((PostLinkedInActivity.update_share_queue s).2.mem.lookup "social_share_queue"
         = if rest.isEmpty then Option.none else some (.list rest))) ∧
    (∀ (env : Env) (sd : SharedData) (s : EffState) (d : List (String × Val))
       (tw : String) (prd : List (String × Val)) (rest : List Val),
       env.xApiRegistered = true → env.xApiInit = true →
       s.mem.lookup "social_share_queue" = some (.list (Val.dict d :: rest)) →
       PostTweetActivity.generate_news_tweet (.dict d) = .ok tw →
       (∀ media, env.postTweet (.str tw) media = .ok (.dict prd)) →
       dlookup prd "success" = some (.bool true) →
       ((PostTweetActivity.execute env sd s).2.mem.lookup "social_share_queue"
         = if rest.isEmpty then Option.none else some (.list rest))) := by
  constructor
  · intro s a rest hq
    have hget : s.mem.get "social_share_queue" = .list (a :: rest) := by
      simp [Memory.get, hq]
    cases rest with
    | nil =>
        simp only [PostLinkedInActivity.update_share_queue, catchDefault,
          PostLinkedInActivity.updateShareQueueBody, eBind, eret, liftE, memGetE,
          memDeleteE, memStoreE, hget, Val.truthy, Val.popHead]
        simp [Memory.lookup_delete]
    | cons b bs =>
        simp only [PostLinkedInActivity.update_share_queue, catchDefault,
          PostLinkedInActivity.updateShareQueueBody, eBind, eret, liftE, memGetE,
          memDeleteE, memStoreE, hget, Val.truthy, Val.popHead]
        simp [Memory.lookup_store]
  · intro env sd s d tw prd rest hreg hini hq htw hpost hsucc
    have hget : s.mem.get "social_share_queue" = .list (Val.dict d :: rest) := by
      simp [Memory.get, hq]
    simp only [dlookup] at hsucc
    cases rest with
    | nil =>
        simp only [PostTweetActivity.execute, runActivity, PostTweetActivity.executeBody,
          hreg, hini, Bool.not_true, Bool.false_eq_true, if_false, actR, eBind, eret,
          liftE, memGetE, memDeleteE, memStoreE, hget, Val.truthy, Val.index0, htw,
          Val.dget, Val.dgetD, hpost, Val.popHead, hsucc, dlookup]
        simp [Memory.lookup_delete]
    | cons b bs =>
        simp only [PostTweetActivity.execute, runActivity, PostTweetActivity.executeBody,
          hreg, hini, Bool.not_true, Bool.false_eq_true, if_false, actR, eBind, eret,
          liftE, memGetE, memDeleteE, memStoreE, hget, Val.truthy, Val.index0, htw,
          Val.dget, Val.dgetD, hpost, Val.popHead, hsucc, dlookup]
        simp [Memory.lookup_store]

/-- Witness for C4: a two-element queue popped by the LinkedIn helper
leaves exactly the tail; the one-element queue popped in the tweet
activity deletes the key. -/
theorem share_queue_pop_semantics_witness :
    ((PostLinkedInActivity.update_share_queue
        (stOf [("social_share_queue", .list [article0, .str "x"])])).2.mem.lookup
      "social_share_queue" = some (.list [.str "x"])) ∧
    ((PostTweetActivity.execute envHappy (some [])
        (stOf [("social_share_queue", .list [article0])])).2.mem.lookup
      "social_share_queue" = Option.none) :=
  ⟨share_queue_pop_semantics.1 (stOf [("social_share_queue", .list [article0, .str "x"])])
      article0 [.str "x"] rfl,
   share_queue_pop_semantics.2 envHappy (some [])
      (stOf [("social_share_queue", .list [article0])])
      [("title", .str "T"), ("url", .str "u"), ("image_url", .str "i")]
      "📰 T u #CaregiverSupport"
      [("success", .bool true), ("tweet_url", .str "https://x/1")] []
      rfl rfl rfl rfl (fun _ => rfl) rfl⟩

/-- The in-place alias replacement finds the fresh binding. -/
theorem find_map_set {α : Type} (l : List (String × α)) (k : String) (v : α)
    (h : l.any (fun kv => kv.1 == k) = true) :
    List.find? (fun kv => kv.1 == k)
      (l.map (fun kv => if kv.1 == k then (k, v) else kv)) = some (k, v) := by
  induction l with
  | nil => simp at h
  | cons kv l ih =>
      rw [List.map_cons]
      by_cases hk : kv.1 = k
      · rw [if_pos (by simp [hk])]
        rw [@List.find?_cons_of_pos _ (fun kv : String × α => kv.1 == k) (k, v) _ (by simp)]
      · rw [if_neg (by simp [hk])]
        rw [@List.find?_cons_of_neg _ (fun kv : String × α => kv.1 == k) kv _ (by simp [hk])]
        apply ih
        simp only [List.any_cons, Bool.or_eq_true] at h
        rcases h with h | h
        · exact absurd (by simpa using h) hk
        · exact h

/-- The in-place alias replacement leaves other keys alone. -/
theorem find_map_set_ne {α : Type} (l : List (String × α)) (k k' : String) (v : α)
    (h : k' ≠ k) :
    List.find? (fun kv => kv.1 == k')
      (l.map (fun kv => if kv.1 == k then (k, v) else kv)) =
    List.find? (fun kv => kv.1 == k') l := by
  induction l with
  | nil => rfl
  | cons kv l ih =>
      rw [List.map_cons]
      by_cases hk : kv.1 = k
      · rw [if_pos (by simp [hk])]
        rw [@List.find?_cons_of_neg _ (fun kv : String × α => kv.1 == k') (k, v) _
          (by simp; intro hc; exact h hc.symm)]
        rw [@List.find?_cons_of_neg _ (fun kv : String × α => kv.1 == k') kv _
          (by simp [hk]; intro hc; exact h hc.symm)]
        exact ih
      · rw [if_neg (by simp [hk])]
        by_cases hb : kv.1 = k'
        · rw [@List.find?_cons_of_pos _ (fun kv : String × α => kv.1 == k') kv _ (by simp [hb]),
            @List.find?_cons_of_pos _ (fun kv : String × α => kv.1 == k') kv _ (by simp [hb])]
        · rw [@List.find?_cons_of_neg _ (fun kv : String × α => kv.1 == k') kv _ (by simp [hb]),
            @List.find?_cons_of_neg _ (fun kv : String × α => kv.1 == k') kv _ (by simp [hb])]
          exact ih

/-- A key no entry carries is not found. -/
theorem find_none_of_any_false {α : Type} (l : List (String × α)) (k : String)
    (h : ¬ (l.any (fun kv => kv.1 == k) = true)) :
    List.find? (fun kv => kv.1 == k) l = Option.none := by
  rw [List.find?_eq_none]
  intro x hx
  intro hc
  apply h
  have hgoal : ∃ x ∈ l, (fun kv : String × α => kv.1 == k) x = true := ⟨x, hx, hc⟩
  exact List.any_eq_true.mpr hgoal

/-- Dict assignment binds its key. -/
theorem alistGet_set_self {α : Type} (l : List (String × α)) (k : String) (v : α) :
    alistGet (alistSet l k v) k = some v := by
  unfold alistSet
  split
  next h =>
    unfold alistGet
    rw [find_map_set l k v h]
    rfl
  next h =>
    unfold alistGet
    rw [List.find?_append, find_none_of_any_false l k h]
    rw [@List.find?_cons_of_pos _ (fun kv : String × α => kv.1 == k) (k, v) _ (by simp)]
    rfl

/-- Dict assignment leaves other keys alone. -/
theorem alistGet_set_ne {α : Type} (l : List (String × α)) (k k' : String) (v : α)
    (h : k' ≠ k) :
    alistGet (alistSet l k v) k' = alistGet l k' := by
  unfold alistSet
  split
  next =>
    unfold alistGet
    rw [find_map_set_ne l k k' v h]
  next =>
    unfold alistGet
    rw [List.find?_append]
    rw [show List.find? (fun kv : String × α => kv.1 == k') [(k, v)] = Option.none from
      @List.find?_cons_of_neg _ (fun kv : String × α => kv.1 == k') (k, v) []
        (by simp; intro hc; exact h hc.symm)]
    cases hb : List.find? (fun kv : String × α => kv.1 == k') l with
    | some x => rfl
    | none => rfl

/-- Claim C7: for every registry state with an instance registered under
b, register_alias(a, b) makes the lookups of a and of b return that
identical instance; and when b is unregistered, register_alias leaves the
registry unchanged and raises nothing. -/
theorem register_alias_resolves_identical :
    (∀ (α : Type) (reg : SkillRegistry α) (a b : String) (inst : α),
       alistGet reg.skill_instances b = some inst →
       (reg.register_alias a b).getSkill a = .ok inst ∧
       (reg.register_alias a b).getSkill b = .ok inst) ∧
    (∀ (α : Type) (reg : SkillRegistry α) (a b : String),
       alistGet reg.skill_instances b = Option.none →
       reg.register_alias a b = reg) := by
  constructor
  · intro α reg a b inst hb
    unfold SkillRegistry.register_alias
    rw [hb]
    constructor
    · unfold SkillRegistry.getSkill
      simp only
      rw [alistGet_set_self]
    · unfold SkillRegistry.getSkill
      simp only
      by_cases hab : b = a
      · rw [hab] at hb ⊢
        rw [alistGet_set_self]
      · rw [alistGet_set_ne _ _ _ _ hab, hb]
  · intro α reg a b hb
    unfold SkillRegistry.register_alias
    rw [hb]

/-- Witness for C7: a registry holding the instance 7 under b, aliased to
a, with both lookups agreeing; and a registry without b left unchanged. -/
theorem register_alias_resolves_identical_witness :
    ((SkillRegistry.mk [("b", 7)]).register_alias "a" "b").getSkill "a" = .ok 7 ∧
    ((SkillRegistry.mk [("b", 7)]).register_alias "a" "b").getSkill "b" = .ok 7 ∧
    ((SkillRegistry.mk ([] : List (String × Nat))).register_alias "a" "b" =
      SkillRegistry.mk []) :=
  ⟨(register_alias_resolves_identical.1 Nat (SkillRegistry.mk [("b", 7)]) "a" "b" 7 rfl).1,
   (register_alias_resolves_identical.1 Nat (SkillRegistry.mk [("b", 7)]) "a" "b" 7 rfl).2,
   register_alias_resolves_identical.2 Nat (SkillRegistry.mk []) "a" "b" rfl⟩

/-- An operation on an ImageGenerationSkill instance: the operations the
repository performs on one (initialize, can_generate, generate_image,
reset_counts, and the external enabled-flag mutation done by the draw
activity), each paired at run time with the environment it sees. -/
inductive SkillOp where
  | initOp : SkillOp
  | canOp : SkillOp
  | genOp (prompt : String) (size : Int × Int) (format : String)
      (content_type template_key template_args : Val) : SkillOp
  | resetOp : SkillOp
  | setEnabledOp (b : Bool) : SkillOp

/-- The state reached after one operation. -/
def SkillOp.apply (env : Env) (s : ImageGenerationSkill) : SkillOp → ImageGenerationSkill
  | .initOp => (ImageGenerationSkill.initStep env s).2
  | .canOp => s
  | .genOp p sz f ct tk ta => (ImageGenerationSkill.generate_image env s p sz f ct tk ta).2
  | .resetOp => s.reset_counts
  | .setEnabledOp b => { s with enabled := b }

/-- The state reached after a sequence of operations. -/
def runOps : List (Env × SkillOp) → ImageGenerationSkill → ImageGenerationSkill
  | [], s => s
  | (e, op) :: rest, s => runOps rest (op.apply e s)

/-- initialize never touches the counter, the quota or the enabled flag. -/
theorem initStep_fields (env : Env) (s : ImageGenerationSkill) :
    (ImageGenerationSkill.initStep env s).2.generations_count = s.generations_count ∧
    (ImageGenerationSkill.initStep env s).2.max_generations = s.max_generations ∧
    (ImageGenerationSkill.initStep env s).2.enabled = s.enabled := by
  unfold ImageGenerationSkill.initStep
  split
  · exact ⟨rfl, rfl, rfl⟩
  · split
    · exact ⟨rfl, rfl, rfl⟩
    · exact ⟨rfl, rfl, rfl⟩

/-- can_generate only passes strictly below the quota. -/
theorem can_generate_lt (s : ImageGenerationSkill)
    (h : s.can_generate = true) : s.generations_count < s.max_generations := by
  unfold ImageGenerationSkill.can_generate at h
  split_ifs at h with h1 h2 h3
  omega

/-- Counter accounting of the post-guard core: the quota is preserved; a
success result implies the counter was strictly below the quota before
the call and is incremented by exactly one; every failure result leaves
the counter unchanged; and the result is always one of the two. -/
theorem generateCore_count (env : Env) (s1 : ImageGenerationSkill) (p : String)
    (sz : Int × Int) (f : String) (ct tk ta : Val) :
    ((ImageGenerationSkill.generateCore env s1 p sz f ct tk ta).2.max_generations
      = s1.max_generations) ∧
    ((ImageGenerationSkill.generateCore env s1 p sz f ct tk ta).1.dget "success"
        = .ok (.bool true) →
      s1.generations_count < s1.max_generations ∧
      (ImageGenerationSkill.generateCore env s1 p sz f ct tk ta).2.generations_count
        = s1.generations_count + 1) ∧
    ((ImageGenerationSkill.generateCore env s1 p sz f ct tk ta).1.dget "success"
        = .ok (.bool false) →
      (ImageGenerationSkill.generateCore env s1 p sz f ct tk ta).2.generations_count
        = s1.generations_count) ∧
    (((ImageGenerationSkill.generateCore env s1 p sz f ct tk ta).1.dget "success"
        = .ok (.bool true)) ∨
     ((ImageGenerationSkill.generateCore env s1 p sz f ct tk ta).1.dget "success"
        = .ok (.bool false))) := by
  unfold ImageGenerationSkill.generateCore
  by_cases hcg : s1.can_generate
  · simp only [hcg, Bool.not_true, Bool.false_eq_true, if_false]
    have hlt := can_generate_lt s1 hcg
    split
    · simp [errDict, Val.dget, Val.dgetD, dlookup]
    · split
      · simp [errDict, Val.dget, Val.dgetD, dlookup]
      · split
        · simp [errDict, Val.dget, Val.dgetD, dlookup]
        · simp [Val.dget, Val.dgetD, dlookup]
          omega
  · simp only [Bool.not_eq_true] at hcg
    simp [hcg, errDict, Val.dget, Val.dgetD, dlookup]

/-- Counter accounting of generate_image as a whole. -/
theorem generate_image_count (env : Env) (s : ImageGenerationSkill) (p : String)
    (sz : Int × Int) (f : String) (ct tk ta : Val) :
    ((ImageGenerationSkill.generate_image env s p sz f ct tk ta).2.max_generations
      = s.max_generations) ∧
    ((ImageGenerationSkill.generate_image env s p sz f ct tk ta).1.dget "success"
        = .ok (.bool true) →
      s.generations_count < s.max_generations ∧
      (ImageGenerationSkill.generate_image env s p sz f ct tk ta).2.generations_count
        = s.generations_count + 1) ∧
    ((ImageGenerationSkill.generate_image env s p sz f ct tk ta).1.dget "success"
        = .ok (.bool false) →
      (ImageGenerationSkill.generate_image env s p sz f ct tk ta).2.generations_count
        = s.generations_count) ∧
    (((ImageGenerationSkill.generate_image env s p sz f ct tk ta).1.dget "success"
        = .ok (.bool true)) ∨
     ((ImageGenerationSkill.generate_image env s p sz f ct tk ta).1.dget "success"
        = .ok (.bool false))) := by
  unfold ImageGenerationSkill.generate_image
  have hinit := initStep_fields env s
  split
  next s1 heq =>
    by_cases hf : s.initializedFlag
    · rw [if_pos hf] at heq
      simp at heq
    · rw [if_neg hf] at heq
      have hsnd := congrArg Prod.snd heq
      simp only at hsnd
      rw [← hsnd]
      simp [errDict, Val.dget, Val.dgetD, dlookup, hinit.1, hinit.2.1]
  next s1 heq =>
    have hs1 : s1.generations_count = s.generations_count ∧
        s1.max_generations = s.max_generations := by
      by_cases hf : s.initializedFlag
      · rw [if_pos hf] at heq
        have hsnd := congrArg Prod.snd heq
        simp only at hsnd
        rw [← hsnd]
        exact ⟨rfl, rfl⟩
      · rw [if_neg hf] at heq
        have hsnd := congrArg Prod.snd heq
        simp only at hsnd
        rw [← hsnd]
        exact ⟨hinit.1, hinit.2.1⟩
    have hcore := generateCore_count env s1 p sz f ct tk ta
    rw [hs1.1, hs1.2] at hcore
    exact hcore

/-- The quota invariant is preserved by every operation sequence. -/
theorem quota_invariant_aux (ops : List (Env × SkillOp)) :
    ∀ (s : ImageGenerationSkill),
      0 ≤ s.generations_count → s.generations_count ≤ s.max_generations →
      0 ≤ (runOps ops s).generations_count ∧
      (runOps ops s).generations_count ≤ (runOps ops s).max_generations ∧
      (runOps ops s).max_generations = s.max_generations := by
  induction ops with
  | nil => intro s h0 h1; exact ⟨h0, h1, rfl⟩
  | cons eop rest ih =>
      intro s h0 h1
      obtain ⟨e, op⟩ := eop
      have hstep : 0 ≤ (op.apply e s).generations_count ∧
          (op.apply e s).generations_count ≤ (op.apply e s).max_generations ∧
          (op.apply e s).max_generations = s.max_generations := by
        cases op with
        | initOp =>
            have h := initStep_fields e s
            simp only [SkillOp.apply]
            rw [h.1, h.2.1]
            exact ⟨h0, h1, rfl⟩
        | canOp => exact ⟨h0, h1, rfl⟩
        | genOp p sz f ct tk ta =>
            have h := generate_image_count e s p sz f ct tk ta
            simp only [SkillOp.apply]
            rcases h.2.2.2 with hsucc | hfail
            · have := h.2.1 hsucc
              refine ⟨by omega, ?_, h.1⟩
              rw [h.1]
              omega
            · have := h.2.2.1 hfail
              refine ⟨by omega, ?_, h.1⟩
              rw [h.1]
              omega
        | resetOp =>
            refine ⟨?_, ?_, ?_⟩
            · simp [SkillOp.apply, ImageGenerationSkill.reset_counts]
            · simp only [SkillOp.apply, ImageGenerationSkill.reset_counts]
              omega
            · simp [SkillOp.apply, ImageGenerationSkill.reset_counts]
        | setEnabledOp b => exact ⟨h0, h1, rfl⟩
      have := ih (op.apply e s) hstep.1 hstep.2.1
      unfold runOps
      exact ⟨this.1, this.2.1, this.2.2.trans hstep.2.2⟩

/-- Claim C10: for every ImageGenerationSkill instance,
generations_count ≤ max_generations holds after every operation sequence
from construction (where the counter is 0), generate_image succeeds only
when the counter was strictly below the quota before the call and then
increments it by exactly one, every failure path leaves it unchanged, and
once the counter has reached the quota every further generate_image call
returns a success=False dict. -/
theorem image_generation_quota_invariant :
    (∀ (ops : List (Env × SkillOp)) (enabled : Bool) (maxg : Int)
       (formats : List String), 0 ≤ maxg →
       0 ≤ (runOps ops (ImageGenerationSkill.make enabled maxg formats)).generations_count ∧
       (runOps ops (ImageGenerationSkill.make enabled maxg formats)).generations_count ≤ maxg) ∧
    (∀ (env : Env) (s : ImageGenerationSkill) (p : String) (sz : Int × Int)
       (f : String) (ct tk ta : Val),
       ((ImageGenerationSkill.generate_image env s p sz f ct tk ta).1.dget "success"
           = .ok (.bool true) →
         s.generations_count < s.max_generations ∧
         (ImageGenerationSkill.generate_image env s p sz f ct tk ta).2.generations_count
           = s.generations_count + 1) ∧
       ((ImageGenerationSkill.generate_image env s p sz f ct tk ta).1.dget "success"
           = .ok (.bool false) →
         (ImageGenerationSkill.generate_image env s p sz f ct tk ta).2.generations_count
           = s.generations_count)) ∧
    (∀ (env : Env) (s : ImageGenerationSkill) (p : String) (sz : Int × Int)
       (f : String) (ct tk ta : Val),
       s.generations_count ≥ s.max_generations →
       (ImageGenerationSkill.generate_image env s p sz f ct tk ta).1.dget "success"
         = .ok (.bool false)) := by
  refine ⟨?_, ?_, ?_⟩
  · intro ops enabled maxg formats hm
    have := quota_invariant_aux ops (ImageGenerationSkill.make enabled maxg formats)
      (by simp [ImageGenerationSkill.make]) (by simp [ImageGenerationSkill.make]; exact hm)
    refine ⟨this.1, ?_⟩
    have h2 := this.2.1
    rw [this.2.2] at h2
    simpa [ImageGenerationSkill.make] using h2
  · intro env s p sz f ct tk ta
    have h := generate_image_count env s p sz f ct tk ta
    exact ⟨h.2.1, h.2.2.1⟩
  · intro env s p sz f ct tk ta hge
    have h := generate_image_count env s p sz f ct tk ta
    rcases h.2.2.2 with hsucc | hfail
    · have := (h.2.1 hsucc).1
      omega
    · exact hfail

/-- The timestamp a dedup record carries (0 when absent, as in the
source's `tweet.get("timestamp", 0)`). -/
def tweetTs : Val → Rat
  | .dict d =>
      match dlookup d "timestamp" with
      | some (.num q) => q
      | _ => 0
  | _ => 0

/-- Executable well-formedness of a dedup record: a dict with a numeric
timestamp. -/
def Val.isTweetRec : Val → Bool
  | .dict d =>
      match dlookup d "timestamp" with
      | some (.num _) => true
      | _ => false
  | _ => false

/-- On well-formed records the rolling-window comprehension of
_get_recent_tweets is exactly the timestamp filter. -/
theorem filterRecent_of_wf (cutoff : Rat) :
    ∀ (ts : List Val), ts.all Val.isTweetRec = true →
      filterRecent cutoff ts = .ok (ts.filter (fun t => decide (tweetTs t > cutoff))) := by
  intro ts
  induction ts with
  | nil => intro h; rfl
  | cons t rest ih =>
      intro h
      rw [List.all_cons, Bool.and_eq_true] at h
      obtain ⟨ht, hrest⟩ := h
      cases t with
      | dict d =>
          simp only [Val.isTweetRec] at ht
          match hq : dlookup d "timestamp" with
          | some (Val.num q) =>
              have htt : tweetTs (Val.dict d) = q := by simp [tweetTs, hq]
              unfold filterRecent
              rw [ih hrest]
              simp only [Val.dgetD, hq, List.filter_cons, htt, Option.getD_some,
                Bind.bind, Except.bind, Val.asNum]
              by_cases hc : q > cutoff
              · simp [hc, Pure.pure, Except.pure]
              · simp [hc, Pure.pure, Except.pure]
          | some Val.none => rw [hq] at ht; simp at ht
          | some (Val.bool b) => rw [hq] at ht; simp at ht
          | some (Val.str u) => rw [hq] at ht; simp at ht
          | some (Val.list xs) => rw [hq] at ht; simp at ht
          | some (Val.dict dd) => rw [hq] at ht; simp at ht
          | Option.none => rw [hq] at ht; simp at ht
      | none => simp [Val.isTweetRec] at ht
      | bool b => simp [Val.isTweetRec] at ht
      | num q => simp [Val.isTweetRec] at ht
      | str u => simp [Val.isTweetRec] at ht
      | list xs => simp [Val.isTweetRec] at ht

/-- On well-formed records the dedup loop returns exactly whether some
record is within the minimum interval. -/
theorem dedupCheck_of_wf (now : Rat) :
    ∀ (ts : List Val), ts.all Val.isTweetRec = true →
      dedupCheck now ts = .ok (ts.any (fun t => decide (now - tweetTs t < 3600))) := by
  intro ts
  induction ts with
  | nil => intro h; rfl
  | cons t rest ih =>
      intro h
      rw [List.all_cons, Bool.and_eq_true] at h
      obtain ⟨ht, hrest⟩ := h
      cases t with
      | dict d =>
          simp only [Val.isTweetRec] at ht
          match hq : dlookup d "timestamp" with
          | some (Val.num q) =>
              have htt : tweetTs (Val.dict d) = q := by simp [tweetTs, hq]
              unfold dedupCheck
              simp only [Val.dgetD, hq, List.any_cons, htt, Option.getD_some,
                Bind.bind, Except.bind, Val.asNum]
              by_cases hc : now - q < 3600
              · simp [hc, Pure.pure, Except.pure]
              · simp [hc, Pure.pure, Except.pure, ih hrest]
          | some Val.none => rw [hq] at ht; simp at ht
          | some (Val.bool b) => rw [hq] at ht; simp at ht
          | some (Val.str u) => rw [hq] at ht; simp at ht
          | some (Val.list xs) => rw [hq] at ht; simp at ht
          | some (Val.dict dd) => rw [hq] at ht; simp at ht
          | Option.none => rw [hq] at ht; simp at ht
      | none => simp [Val.isTweetRec] at ht
      | bool b => simp [Val.isTweetRec] at ht
      | num q => simp [Val.isTweetRec] at ht
      | str u => simp [Val.isTweetRec] at ht
      | list xs => simp [Val.isTweetRec] at ht

/-- Under a truthy well-formed recent_tweets list, _get_recent_tweets
returns the filtered records and leaves the state alone. -/
theorem recent_tweets_step
    (env : Env) (s : EffState) (ts : List Val) (keep : List Val)
    (hget : s.mem.get "recent_tweets" = .list ts)
    (htr : (Val.list ts).truthy = true)
    (hfilter : filterRecent (env.now - 4 * 3600) ts = .ok keep) :
    PersonalizedCaregiverSupportActivity.get_recent_tweets env 4 s = (.ok keep, s) := by
  simp only [PersonalizedCaregiverSupportActivity.get_recent_tweets, catchDefault,
    PersonalizedCaregiverSupportActivity.getRecentTweetsBody, eBind, memGetE, liftE,
    hget, htr, if_true, Val.iterate, hfilter]

/-- Filtering preserves an all-elements property. -/
theorem all_filter_sub (p q : Val → Bool) :
    ∀ (l : List Val), l.all p = true → (l.filter q).all p = true := by
  intro l hl
  rw [List.all_eq_true] at hl ⊢
  intro x hx
  exact hl x (List.mem_of_mem_filter hx)

/-- Claim C3: when recent_tweets holds some record whose timestamp lies
within the 3600-second minimum inter-action interval of the current time
(all records being dicts with numeric timestamps),
PersonalizedCaregiverSupportActivity.execute returns success=True with
data.skipped=True and a reason, and makes no external call and no state
change at all: the returned state equals the input state (so the trace of
skill initializations, chat, image, news and posting actions is
untouched). -/
theorem caregiver_support_dedup_skip
    (env : Env) (sd : SharedData) (s : EffState) (ts : List Val)
    (hmem : s.mem.lookup "recent_tweets" = some (.list ts))
    (hwf : ts.all Val.isTweetRec = true)
    (hfresh : ts.any (fun t => decide (0 ≤ env.now - tweetTs t) &&
                               decide (env.now - tweetTs t < 3600)) = true) :
    (PersonalizedCaregiverSupportActivity.execute env sd s).1.success = true ∧
    (PersonalizedCaregiverSupportActivity.execute env sd s).1.data.dget "skipped"
      = .ok (.bool true) ∧
    (PersonalizedCaregiverSupportActivity.execute env sd s).1.data.dget "reason"
      = .ok (.str "Too soon since last tweet") ∧
    (PersonalizedCaregiverSupportActivity.execute env sd s).2 = s := by
  have hget : s.mem.get "recent_tweets" = .list ts := by
    simp [Memory.get, hmem]
  have hne : ts ≠ [] := by
    intro hnil
    rw [hnil] at hfresh
    simp at hfresh
  have htr : (Val.list ts).truthy = true := by
    simp [Val.truthy, hne]
  have hfilter := filterRecent_of_wf (env.now - 4 * 3600) ts hwf
  have hstep := recent_tweets_step env s ts
    (ts.filter (fun t => decide (tweetTs t > env.now - 4 * 3600))) hget htr hfilter
  have hkwf := all_filter_sub Val.isTweetRec
    (fun t => decide (tweetTs t > env.now - 4 * 3600)) ts hwf
  have hdedup := dedupCheck_of_wf env.now
    (ts.filter (fun t => decide (tweetTs t > env.now - 4 * 3600))) hkwf
  have hany : ((ts.filter (fun t => decide (tweetTs t > env.now - 4 * 3600))).any
      (fun t => decide (env.now - tweetTs t < 3600))) = true := by
    rw [List.any_eq_true] at hfresh ⊢
    obtain ⟨t, htmem, hcond⟩ := hfresh
    rw [Bool.and_eq_true, decide_eq_true_iff, decide_eq_true_iff] at hcond
    refine ⟨t, ?_, by simp only [decide_eq_true_iff]; linarith [hcond.2]⟩
    rw [List.mem_filter]
    refine ⟨htmem, by simp only [decide_eq_true_iff]; linarith [hcond.1, hcond.2]⟩
  rw [hany] at hdedup
  simp only [PersonalizedCaregiverSupportActivity.execute, runActivity,
    PersonalizedCaregiverSupportActivity.executeBody, hstep, eBind, liftE, hdedup,
    eret, if_pos]
  simp [ActivityResult.success_result, Val.dget, Val.dgetD, dlookup]

/-- Witness for C3: one record 1000 seconds old; the activity skips
without touching the state. -/
theorem caregiver_support_dedup_skip_witness :
    (PersonalizedCaregiverSupportActivity.execute envHappy (some [])
      (stOf [("recent_tweets", .list [.dict [("timestamp", .num 999000)]])])).1.success
      = true ∧
    (PersonalizedCaregiverSupportActivity.execute envHappy (some [])
      (stOf [("recent_tweets", .list [.dict [("timestamp", .num 999000)]])])).1.data.dget
      "skipped" = .ok (.bool true) ∧
    (PersonalizedCaregiverSupportActivity.execute envHappy (some [])
      (stOf [("recent_tweets", .list [.dict [("timestamp", .num 999000)]])])).1.data.dget
      "reason" = .ok (.str "Too soon since last tweet") ∧
    (PersonalizedCaregiverSupportActivity.execute envHappy (some [])
      (stOf [("recent_tweets", .list [.dict [("timestamp", .num 999000)]])])).2
      = stOf [("recent_tweets", .list [.dict [("timestamp", .num 999000)]])] :=
  caregiver_support_dedup_skip envHappy (some [])
    (stOf [("recent_tweets", .list [.dict [("timestamp", .num 999000)]])])
    [.dict [("timestamp", .num 999000)]] rfl rfl
    (by norm_num [envHappy, tweetTs, dlookup, List.any_cons])

/-- An environment in which the chat skill fails to initialize while the
serper search succeeds with one article. -/
def envC2 : Env :=
  { envHappy with
      chatInit := false,
      serperInit := true,
      searchNews := fun _ _ => .ok (.dict
        [("success", .bool true),
         ("articles", .list [.dict [("title", .str "t"), ("description", .str "d")]])]) }

/-- Counterexample to C2 as stated: fetch_news declares chat_skill among
its required skills, yet with chat initialization returning false the
activity does not fail — the relevance analyses fall back to 0.0, every
article is filtered out, and execute returns success=True. -/
theorem fetch_news_success_despite_chat_init_failure :
    envC2.chatInit = false ∧
    (FetchNewsActivity.execute envC2 (some []) (stOf [])).1.success = true := by
  constructor
  · rfl
  · have h710 : ((0 : Rat) ≥ 7/10) = False := by norm_num
    simp [FetchNewsActivity.execute, runActivity, FetchNewsActivity.executeBody,
      FetchNewsActivity.topicsFor, FetchNewsActivity.collectAll,
      FetchNewsActivity.collectTopic, FetchNewsActivity.processArticle,
      FetchNewsActivity.analyze_article_relevance, FetchNewsActivity.analyzeBody,
      FetchNewsActivity.categorize_article, FetchNewsActivity.categorizeBody,
      FetchNewsActivity.filterRelevant, FetchNewsActivity.sortByRelevance,
      FetchNewsActivity.store_articles_in_memory, FetchNewsActivity.storeLoop,
      FetchNewsActivity.storeCatLoop, sortDescKeyed, insertDesc,
      FetchNewsActivity.default_topics, catchDefault,
      eBind, eret, eraise, liftE, memGetE, memStoreE, actR, envC2, envHappy,
      SharedData.getDflt, dlookup, valEqStr, Val.truthy, Val.dget, Val.dgetD,
      Val.iterate, Val.item, Val.setItem, Val.asNum, h710,
      List.mapM, List.mapM.loop, Bind.bind, Except.bind, Pure.pure, Except.pure,
      pyIn, charsContain, ActivityResult.success_result]

/-- The image skill instance with the enabled flag cleared in the
config, so a successful initialization is followed by generation calls
that return failure dicts without any OpenAI traffic. -/
def imgOff : ImageGenerationSkill :=
  { imgFresh with enabled := false }

/-- Execution state with empty memory, an empty trace and the disabled
image skill. -/
def stOff : EffState :=
  ⟨[], [], imgOff⟩

/-- An environment whose chat skill fails to initialize while the Serper
search succeeds with one promotable GiveCare article: the soft-failure
scenario of promote_givecare_content. -/
def envPromoteSoft : Env :=
  { envHappy with
      chatInit := false,
      serperInit := true,
      searchNews := fun _ _ => .ok (.dict
        [("success", .bool true),
         ("articles", .list [.dict
           [("title", .str "NT"), ("url", .str "nu"),
            ("description", .str "d"), ("image_url", .str "img")]])]) }

/-- Claim C2 as amended: for every gate of every gated activity —
post_a_tweet's x_api gate, and the chat, image-generation and lite-LLM
gates of personalized_caregiver_checkin, personalized_caregiver_support
and personalized_emotional_support together with the chat gate of
personalized_emotional_checkins — a required skill whose initialize()
returns false makes execute return success=False with a message naming
that skill and no subsequent skill action: the trace gains exactly the
failed initialization after the actions performed before the gate, and
memory is untouched.  fetch_news and promote_givecare_content are the
exception the counterexample shows: there a chat_skill initialization
failure is soft — the helpers fall back to default content and the
activity can still return success=True, as the final conjunct shows for
promote_givecare_content. -/
theorem skill_init_failure_aborts_gated_activities :
    (∀ (env : Env) (sd : SharedData) (s : EffState),
       env.xApiRegistered = true → env.xApiInit = false →
       PostTweetActivity.execute env sd s =
         (ActivityResult.error_result "X API skill not available",
          { s with trace := s.trace ++ [Action.skillInit "x_api" false] })) ∧
    (∀ (env : Env) (sd : SharedData) (s : EffState),
       env.chatInit = false →
       PersonalizedCaregiverCheckin.execute env sd s =
         (ActivityResult.error_result "Chat skill not available",
          { s with trace := s.trace ++ [Action.skillInit "chat_skill" false] })) ∧
    (∀ (env : Env) (s : EffState) (resp : String),
       env.chatInit = true →
       env.chatCompletion
         "I remember last time you mentioned feeling overwhelmed. How are you doing today?"
         = .ok resp →
       env.imageApiKey = .ok Option.none →
       PersonalizedCaregiverCheckin.execute env (some []) s =
         (ActivityResult.error_result "Image generation skill not available",
          { s with
              img := { s.img with apiKey := Option.none },
              trace := s.trace ++
                [Action.skillInit "chat_skill" true,
                 Action.chatCall
                   "I remember last time you mentioned feeling overwhelmed. How are you doing today?",
                 Action.skillInit "image_generation" false] })) ∧
    (∀ (env : Env) (s : EffState) (resp k : String),
       env.chatInit = true →
       env.chatCompletion
         "I remember last time you mentioned feeling overwhelmed. How are you doing today?"
         = .ok resp →
       env.imageApiKey = .ok (some k) → (k == "") = false →
       env.liteLlmInit = false → s.img.enabled = false →
       PersonalizedCaregiverCheckin.execute env (some []) s =
         (ActivityResult.error_result "Lite LLM skill not available",
          { s with
              img := { s.img with apiKey := some k, initializedFlag := true },
              trace := s.trace ++
                [Action.skillInit "chat_skill" true,
                 Action.chatCall
                   "I remember last time you mentioned feeling overwhelmed. How are you doing today?",
                 Action.skillInit "image_generation" true,
                 Action.imageCall "A serene beach or peaceful forest",
                 Action.skillInit "lite_llm_skill" false] })) ∧
    (∀ (env : Env) (sd : SharedData) (s : EffState),
       s.mem.lookup "recent_tweets" = Option.none →
       env.chatInit = false →
       PersonalizedCaregiverSupportActivity.execute env sd s =
         (ActivityResult.error_result "Chat skill not available",
          { s with trace := s.trace ++ [Action.skillInit "chat_skill" false] })) ∧
    (∀ (env : Env) (s : EffState) (resp : String),
       s.mem.lookup "recent_tweets" = Option.none →
       env.chatInit = true →
       env.chatCompletion
         "I remember last time you mentioned feeling overwhelmed. How are you doing today?"
         = .ok resp →
       env.imageApiKey = .ok Option.none →
       PersonalizedCaregiverSupportActivity.execute env (some []) s =
         (ActivityResult.error_result "Image generation skill not available",
          { s with
              img := { s.img with apiKey := Option.none },
              trace := s.trace ++
                [Action.skillInit "chat_skill" true,
                 Action.chatCall
                   "I remember last time you mentioned feeling overwhelmed. How are you doing today?",
                 Action.skillInit "image_generation" false] })) ∧
    (∀ (env : Env) (s : EffState) (resp k : String),
       s.mem.lookup "recent_tweets" = Option.none →
       env.chatInit = true →
       env.chatCompletion
         "I remember last time you mentioned feeling overwhelmed. How are you doing today?"
         = .ok resp →
       env.imageApiKey = .ok (some k) → (k == "") = false →
       env.liteLlmInit = false → s.img.enabled = false →
       PersonalizedCaregiverSupportActivity.execute env (some []) s =
         (ActivityResult.error_result "Lite LLM skill not available",
          { s with
              img := { s.img with apiKey := some k, initializedFlag := true },
              trace := s.trace ++
                [Action.skillInit "chat_skill" true,
                 Action.chatCall
                   "I remember last time you mentioned feeling overwhelmed. How are you doing today?",
                 Action.skillInit "image_generation" true,
                 Action.imageCall "",
                 Action.skillInit "lite_llm_skill" false] })) ∧
    (∀ (env : Env) (sd : SharedData) (s : EffState),
       env.chatInit = false →
       PersonalizedEmotionalCheckinsActivity.execute env sd s =
         (ActivityResult.error_result "Chat skill not available",
          { s with trace := s.trace ++ [Action.skillInit "chat_skill" false] })) ∧
    (∀ (env : Env) (sd : SharedData) (s : EffState),
       env.chatInit = false →
       PersonalizedEmotionalSupportActivity.execute env sd s =
         (ActivityResult.error_result "Chat skill not available",
          { s with trace := s.trace ++ [Action.skillInit "chat_skill" false] })) ∧
    (∀ (env : Env) (sd : SharedData) (s : EffState) (resp : String),
       env.chatInit = true →
       env.chatCompletion
         "That sounds incredibly challenging. I'm here for you. How are you feeling today?"
         = .ok resp →
       env.imageApiKey = .ok Option.none →
       PersonalizedEmotionalSupportActivity.execute env sd s =
         (ActivityResult.error_result "Image generation skill not available",
          { s with
              img := { s.img with apiKey := Option.none },
              trace := s.trace ++
                [Action.skillInit "chat_skill" true,
                 Action.chatCall
                   "That sounds incredibly challenging. I'm here for you. How are you feeling today?",
                 Action.skillInit "image_generation" false] })) ∧
    (∀ (env : Env) (sd : SharedData) (s : EffState) (resp k : String),
       env.chatInit = true →
       env.chatCompletion
         "That sounds incredibly challenging. I'm here for you. How are you feeling today?"
         = .ok resp →
       env.imageApiKey = .ok (some k) → (k == "") = false →
       env.liteLlmInit = false → s.img.enabled = false →
       PersonalizedEmotionalSupportActivity.execute env sd s =
         (ActivityResult.error_result "Lite LLM skill not available",
          { s with
              img := { s.img with apiKey := some k, initializedFlag := true },
              trace := s.trace ++
                [Action.skillInit "chat_skill" true,
                 Action.chatCall
                   "That sounds incredibly challenging. I'm here for you. How are you feeling today?",
                 Action.skillInit "image_generation" true,
                 Action.imageCall "You are strong and resilient. Calming landscape.",
                 Action.skillInit "lite_llm_skill" false] })) ∧
    (envPromoteSoft.chatInit = false ∧
     (PromoteGiveCareContentActivity.execute envPromoteSoft (some []) (stOf [])).1.success
       = true) := by
  refine ⟨?_, ?_, ?_, ?_, ?_, ?_, ?_, ?_, ?_, ?_, ?_, ?_⟩
  · intro env sd s hreg hini
    simp only [PostTweetActivity.execute, runActivity, PostTweetActivity.executeBody,
      hreg, hini, Bool.not_true, Bool.not_false, Bool.false_eq_true, if_false, if_true,
      actR, eBind, eret]
  · intro env sd s hchat
    simp only [PersonalizedCaregiverCheckin.execute, runActivity,
      PersonalizedCaregiverCheckin.executeBody, chatInitE, hchat,
      Bool.not_false, if_true, eBind, eret]
  · intro env s resp hchat hcomp hkey
    have hP : ("I remember last time you mentioned feeling " ++ "overwhelmed" ++
        ". How are you doing today?" : String) =
        "I remember last time you mentioned feeling overwhelmed. How are you doing today?" := rfl
    simp [PersonalizedCaregiverCheckin.execute, runActivity,
      PersonalizedCaregiverCheckin.executeBody, chatInitE, chatCallE, imgInitE,
      ImageGenerationSkill.initStep, hchat, hcomp, hkey, keyFalsy,
      SharedData.getDflt, dlookup, Val.pyStr, hP, eBind, eret, liftE]
  · intro env s resp k hchat hcomp hkey hk hlite henb
    have hP : ("I remember last time you mentioned feeling " ++ "overwhelmed" ++
        ". How are you doing today?" : String) =
        "I remember last time you mentioned feeling overwhelmed. How are you doing today?" := rfl
    simp [PersonalizedCaregiverCheckin.execute, runActivity,
      PersonalizedCaregiverCheckin.executeBody, chatInitE, chatCallE, imgInitE,
      genImageE, liteLlmInitE, ImageGenerationSkill.initStep,
      ImageGenerationSkill.generate_image, ImageGenerationSkill.generateCore,
      ImageGenerationSkill.can_generate, hchat, hcomp, hkey, hk, hlite, henb,
      keyFalsy, SharedData.getDflt, dlookup, Val.pyStr, hP, eBind, eret, liftE]
  · intro env sd s hrt hchat
    simp only [PersonalizedCaregiverSupportActivity.execute, runActivity,
      PersonalizedCaregiverSupportActivity.executeBody,
      PersonalizedCaregiverSupportActivity.get_recent_tweets,
      PersonalizedCaregiverSupportActivity.getRecentTweetsBody, catchDefault,
      memGetE, Memory.get, hrt, Option.getD, Val.truthy, Bool.false_eq_true,
      if_false, Val.iterate, filterRecent, dedupCheck, chatInitE, hchat,
      Bool.not_false, if_true, eBind, eret, liftE,
      Bind.bind, Except.bind, Pure.pure, Except.pure]
  · intro env s resp hrt hchat hcomp hkey
    have hP : ("I remember last time you mentioned feeling " ++ "overwhelmed" ++
        ". How are you doing today?" : String) =
        "I remember last time you mentioned feeling overwhelmed. How are you doing today?" := rfl
    simp [PersonalizedCaregiverSupportActivity.execute, runActivity,
      PersonalizedCaregiverSupportActivity.executeBody,
      PersonalizedCaregiverSupportActivity.get_recent_tweets,
      PersonalizedCaregiverSupportActivity.getRecentTweetsBody, catchDefault,
      memGetE, Memory.get, hrt, Val.truthy, Val.iterate, filterRecent, dedupCheck,
      chatInitE, chatCallE, imgInitE, ImageGenerationSkill.initStep,
      hchat, hcomp, hkey, keyFalsy, SharedData.getDflt, dlookup, Val.pyStr, hP,
      eBind, eret, liftE, Bind.bind, Except.bind, Pure.pure, Except.pure]
  · intro env s resp k hrt hchat hcomp hkey hk hlite henb
    have hP : ("I remember last time you mentioned feeling " ++ "overwhelmed" ++
        ". How are you doing today?" : String) =
        "I remember last time you mentioned feeling overwhelmed. How are you doing today?" := rfl
    simp [PersonalizedCaregiverSupportActivity.execute, runActivity,
      PersonalizedCaregiverSupportActivity.executeBody,
      PersonalizedCaregiverSupportActivity.get_recent_tweets,
      PersonalizedCaregiverSupportActivity.getRecentTweetsBody, catchDefault,
      memGetE, Memory.get, hrt, Val.truthy, Val.iterate, filterRecent, dedupCheck,
      chatInitE, chatCallE, imgInitE, genImageE, liteLlmInitE,
      ImageGenerationSkill.initStep, ImageGenerationSkill.generate_image,
      ImageGenerationSkill.generateCore, ImageGenerationSkill.can_generate,
      errDict, extractImageUrl, Val.dget, Val.dgetD,
      hchat, hcomp, hkey, hk, hlite, henb, keyFalsy,
      SharedData.getDflt, dlookup, Val.pyStr, hP,
      eBind, eret, liftE, Bind.bind, Except.bind, Pure.pure, Except.pure]
  · intro env sd s hchat
    simp only [PersonalizedEmotionalCheckinsActivity.execute, runActivity,
      PersonalizedEmotionalCheckinsActivity.executeBody, chatInitE, hchat,
      Bool.not_false, if_true, eBind, eret]
  · intro env sd s hchat
    simp only [PersonalizedEmotionalSupportActivity.execute, runActivity,
      PersonalizedEmotionalSupportActivity.executeBody, chatInitE, hchat,
      Bool.not_false, if_true, eBind, eret]
  · intro env sd s resp hchat hcomp hkey
    simp [PersonalizedEmotionalSupportActivity.execute, runActivity,
      PersonalizedEmotionalSupportActivity.executeBody, chatInitE, chatCallE,
      imgInitE, ImageGenerationSkill.initStep, hchat, hcomp, hkey, keyFalsy,
      eBind, eret, liftE]
  · intro env sd s resp k hchat hcomp hkey hk hlite henb
    simp [PersonalizedEmotionalSupportActivity.execute, runActivity,
      PersonalizedEmotionalSupportActivity.executeBody, chatInitE, chatCallE,
      imgInitE, genImageE, liteLlmInitE, ImageGenerationSkill.initStep,
      ImageGenerationSkill.generate_image, ImageGenerationSkill.generateCore,
      ImageGenerationSkill.can_generate, hchat, hcomp, hkey, hk, hlite, henb,
      keyFalsy, eBind, eret, liftE]
  · exact ⟨rfl, rfl⟩

/-- Witness for the amended C2: every gate of every gated activity
exercised at a concrete environment, plus the soft promote run. -/
theorem skill_init_failure_aborts_gated_activities_witness :
    (PostTweetActivity.execute { envHappy with xApiInit := false } (some []) (stOf []) =
      (ActivityResult.error_result "X API skill not available",
       { stOf [] with trace := [Action.skillInit "x_api" false] })) ∧
    (PersonalizedCaregiverCheckin.execute { envHappy with chatInit := false }
        (some []) (stOf []) =
      (ActivityResult.error_result "Chat skill not available",
       { stOf [] with trace := [Action.skillInit "chat_skill" false] })) ∧
    (PersonalizedCaregiverCheckin.execute
        { envHappy with imageApiKey := .ok Option.none } (some []) (stOf []) =
      (ActivityResult.error_result "Image generation skill not available",
       { stOf [] with
           img := { imgFresh with apiKey := Option.none },
           trace :=
             [Action.skillInit "chat_skill" true,
              Action.chatCall
                "I remember last time you mentioned feeling overwhelmed. How are you doing today?",
              Action.skillInit "image_generation" false] })) ∧
    (PersonalizedCaregiverCheckin.execute
        { envHappy with liteLlmInit := false } (some []) stOff =
      (ActivityResult.error_result "Lite LLM skill not available",
       { stOff with
           img := { imgOff with apiKey := some "key", initializedFlag := true },
           trace :=
             [Action.skillInit "chat_skill" true,
              Action.chatCall
                "I remember last time you mentioned feeling overwhelmed. How are you doing today?",
              Action.skillInit "image_generation" true,
              Action.imageCall "A serene beach or peaceful forest",
              Action.skillInit "lite_llm_skill" false] })) ∧
    (PersonalizedCaregiverSupportActivity.execute { envHappy with chatInit := false }
        (some []) (stOf []) =
      (ActivityResult.error_result "Chat skill not available",
       { stOf [] with trace := [Action.skillInit "chat_skill" false] })) ∧
    (PersonalizedCaregiverSupportActivity.execute
        { envHappy with imageApiKey := .ok Option.none } (some []) (stOf []) =
      (ActivityResult.error_result "Image generation skill not available",
       { stOf [] with
           img := { imgFresh with apiKey := Option.none },
           trace :=
             [Action.skillInit "chat_skill" true,
              Action.chatCall
                "I remember last time you mentioned feeling overwhelmed. How are you doing today?",
              Action.skillInit "image_generation" false] })) ∧
    (PersonalizedCaregiverSupportActivity.execute
        { envHappy with liteLlmInit := false } (some []) stOff =
      (ActivityResult.error_result "Lite LLM skill not available",
       { stOff with
           img := { imgOff with apiKey := some "key", initializedFlag := true },
           trace :=
             [Action.skillInit "chat_skill" true,
              Action.chatCall
                "I remember last time you mentioned feeling overwhelmed. How are you doing today?",
              Action.skillInit "image_generation" true,
              Action.imageCall "",
              Action.skillInit "lite_llm_skill" false] })) ∧
    (PersonalizedEmotionalCheckinsActivity.execute { envHappy with chatInit := false }
        (some []) (stOf []) =
      (ActivityResult.error_result "Chat skill not available",
       { stOf [] with trace := [Action.skillInit "chat_skill" false] })) ∧
    (PersonalizedEmotionalSupportActivity.execute { envHappy with chatInit := false }
        (some []) (stOf []) =
      (ActivityResult.error_result "Chat skill not available",
       { stOf [] with trace := [Action.skillInit "chat_skill" false] })) ∧
    (PersonalizedEmotionalSupportActivity.execute
        { envHappy with imageApiKey := .ok Option.none } (some []) (stOf []) =
      (ActivityResult.error_result "Image generation skill not available",
       { stOf [] with
           img := { imgFresh with apiKey := Option.none },
           trace :=
             [Action.skillInit "chat_skill" true,
              Action.chatCall
                "That sounds incredibly challenging. I'm here for you. How are you feeling today?",
              Action.skillInit "image_generation" false] })) ∧
    (PersonalizedEmotionalSupportActivity.execute
        { envHappy with liteLlmInit := false } (some []) stOff =
      (ActivityResult.error_result "Lite LLM skill not available",
       { stOff with
           img := { imgOff with apiKey := some "key", initializedFlag := true },
           trace :=
             [Action.skillInit "chat_skill" true,
              Action.chatCall
                "That sounds incredibly challenging. I'm here for you. How are you feeling today?",
              Action.skillInit "image_generation" true,
              Action.imageCall "You are strong and resilient. Calming landscape.",
              Action.skillInit "lite_llm_skill" false] })) ∧
    ((PromoteGiveCareContentActivity.execute envPromoteSoft (some []) (stOf [])).1.success
       = true) :=
  ⟨skill_init_failure_aborts_gated_activities.1
      { envHappy with xApiInit := false } (some []) (stOf []) rfl rfl,
   skill_init_failure_aborts_gated_activities.2.1
      { envHappy with chatInit := false } (some []) (stOf []) rfl,
   skill_init_failure_aborts_gated_activities.2.2.1
      { envHappy with imageApiKey := .ok Option.none } (stOf []) "chat-response"
      rfl rfl rfl,
   skill_init_failure_aborts_gated_activities.2.2.2.1
      { envHappy with liteLlmInit := false } stOff "chat-response" "key"
      rfl rfl rfl rfl rfl rfl,
   skill_init_failure_aborts_gated_activities.2.2.2.2.1
      { envHappy with chatInit := false } (some []) (stOf []) rfl rfl,
   skill_init_failure_aborts_gated_activities.2.2.2.2.2.1
      { envHappy with imageApiKey := .ok Option.none } (stOf []) "chat-response"
      rfl rfl rfl rfl,
   skill_init_failure_aborts_gated_activities.2.2.2.2.2.2.1
      { envHappy with liteLlmInit := false } stOff "chat-response" "key"
      rfl rfl rfl rfl rfl rfl rfl,
   skill_init_failure_aborts_gated_activities.2.2.2.2.2.2.2.1
      { envHappy with chatInit := false } (some []) (stOf []) rfl,
   skill_init_failure_aborts_gated_activities.2.2.2.2.2.2.2.2.1
      { envHappy with chatInit := false } (some []) (stOf []) rfl,
   skill_init_failure_aborts_gated_activities.2.2.2.2.2.2.2.2.2.1
      { envHappy with imageApiKey := .ok Option.none } (some []) (stOf []) "chat-response"
      rfl rfl rfl,
   skill_init_failure_aborts_gated_activities.2.2.2.2.2.2.2.2.2.2.1
      { envHappy with liteLlmInit := false } (some []) stOff "chat-response" "key"
      rfl rfl rfl rfl rfl rfl,
   skill_init_failure_aborts_gated_activities.2.2.2.2.2.2.2.2.2.2.2.2⟩

/-- Sequencing preserves a memory-key fact: if the first step leaves the
key's binding at v and every continuation from a state with binding v
does too, so does the whole. -/
theorem eBind_pres {α β : Type} {k : String} {v : Option Val}
    (x : EffR α) (f : α → EffState → EffR β)
    (hx : (x.2).mem.lookup k = v)
    (hf : ∀ a s', s'.mem.lookup k = v → ((f a s').2).mem.lookup k = v) :
    ((eBind x f).2).mem.lookup k = v := by
  obtain ⟨ex, sx⟩ := x
  cases ex with
  | error e => simpa [eBind] using hx
  | ok a => exact hf a sx hx

/-- A helper-method catch keeps the body's final state. -/
theorem catchDefault_snd {α : Type} (body : EffState → EffR α) (d : α) (s : EffState) :
    (catchDefault body d s).2 = (body s).2 := by
  unfold catchDefault
  rcases h : body s with ⟨ex, s'⟩
  cases ex <;> simp

/-- The activity boundary keeps the body's final state. -/
theorem runActivity_snd (body : EffState → EffR ActivityResult) (s : EffState) :
    (runActivity body s).2 = (body s).2 := by
  unfold runActivity
  rcases h : body s with ⟨ex, s'⟩
  cases ex <;> simp

/-- No news_<category> key is the recent_tweets key. -/
theorem news_key_ne (c : String) : ("recent_tweets" : String) ≠ "news_" ++ c := by
  intro h
  have hd := congrArg String.data h.symm
  rw [String.data_append] at hd
  have h1 : "news_".data = ['n', 'e', 'w', 's', '_'] := rfl
  have h2 : "recent_tweets".data =
    ['r', 'e', 'c', 'e', 'n', 't', '_', 't', 'w', 'e', 'e', 't', 's'] := rfl
  rw [h1, h2] at hd
  simp at hd

/-- No conversation_articles_<id> key is the recent_tweets key. -/
theorem conv_key_ne (c : String) :
    ("recent_tweets" : String) ≠ "conversation_articles_" ++ c := by
  intro h
  have hd := congrArg String.data h.symm
  rw [String.data_append] at hd
  have h1 : "conversation_articles_".data =
    ['c', 'o', 'n', 'v', 'e', 'r', 's', 'a', 't', 'i', 'o', 'n', '_',
     'a', 'r', 't', 'i', 'c', 'l', 'e', 's', '_'] := rfl
  have h2 : "recent_tweets".data =
    ['r', 'e', 'c', 'e', 'n', 't', '_', 't', 'w', 'e', 'e', 't', 's'] := rfl
  rw [h1, h2] at hd
  simp at hd

/-- The category store loop never touches recent_tweets. -/
theorem storeCatLoop_pres (a : Val) (cs : List Val) : ∀ (s : EffState),
    ((FetchNewsActivity.storeCatLoop a cs s).2).mem.lookup "recent_tweets" =
      s.mem.lookup "recent_tweets" := by
  induction cs with
  | nil => intro s; rfl
  | cons c cs ih =>
      intro s
      simp only [FetchNewsActivity.storeCatLoop, eBind, memStoreE]
      rw [ih]
      exact Memory.lookup_store_other s.mem ("news_" ++ c.pyStr) "recent_tweets" a
        (some 86400) (news_key_ne c.pyStr)

/-- The article store loop never touches recent_tweets. -/
theorem storeLoop_pres (arts : List Val) : ∀ (s : EffState),
    ((FetchNewsActivity.storeLoop arts s).2).mem.lookup "recent_tweets" =
      s.mem.lookup "recent_tweets" := by
  induction arts with
  | nil => intro s; rfl
  | cons a rest ih =>
      intro s
      unfold FetchNewsActivity.storeLoop
      refine eBind_pres _ _ rfl ?_
      intro cats s1 h1
      refine eBind_pres _ _ h1 ?_
      intro catl s2 h2
      refine eBind_pres _ _ ((storeCatLoop_pres a catl s2).trans h2) ?_
      intro _ s3 h3
      exact (ih s3).trans h3

/-- _store_articles_in_memory never touches recent_tweets. -/
theorem store_articles_pres (arts : List Val) (s : EffState) :
    ((FetchNewsActivity.store_articles_in_memory arts s).2).mem.lookup "recent_tweets" =
      s.mem.lookup "recent_tweets" := by
  unfold FetchNewsActivity.store_articles_in_memory
  rw [catchDefault_snd]
  refine eBind_pres _ _ (storeLoop_pres arts s) ?_
  intro _ s1 h1
  simp only [memStoreE]
  rw [Memory.lookup_store_other s1.mem "recent_news" "recent_tweets" (.list arts)
    (some 86400) (by decide)]
  exact h1

/-- _prepare_conversation_response never touches recent_tweets. -/
theorem prep_conv_pres (arts : List Val) (ctx : Val) (s : EffState) :
    ((FetchNewsActivity.prepare_conversation_response arts ctx s).2).mem.lookup
      "recent_tweets" = s.mem.lookup "recent_tweets" := by
  unfold FetchNewsActivity.prepare_conversation_response
  rw [catchDefault_snd]
  refine eBind_pres _ _ rfl ?_
  intro topic s1 h1
  refine eBind_pres _ _ h1 ?_
  intro topicL s2 h2
  refine eBind_pres _ _ h2 ?_
  intro hits s3 h3
  split
  · refine eBind_pres _ _ h3 ?_
    intro cid s4 h4
    simp only [memStoreE]
    rw [Memory.lookup_store_other s4.mem ("conversation_articles_" ++ cid.pyStr)
      "recent_tweets" (.list (hits.take 2)) (some 3600) (conv_key_ne cid.pyStr)]
    exact h4
  · exact h3

/-- _prepare_social_content never touches recent_tweets. -/
theorem prep_social_pres (arts : List Val) (s : EffState) :
    ((FetchNewsActivity.prepare_social_content arts s).2).mem.lookup
      "recent_tweets" = s.mem.lookup "recent_tweets" := by
  unfold FetchNewsActivity.prepare_social_content
  rw [catchDefault_snd]
  refine eBind_pres _ _ rfl ?_
  intro sharable s1 h1
  split
  · simp only [memStoreE]
    rw [Memory.lookup_store_other s1.mem "social_share_queue" "recent_tweets"
      (.list (sharable.take 3)) (some 43200) (by decide)]
    exact h1
  · exact h1

/-- The whole fetch_news activity never touches recent_tweets. -/
theorem fetch_news_pres (env : Env) (sd : SharedData) (s : EffState) :
    ((FetchNewsActivity.execute env sd s).2).mem.lookup "recent_tweets" =
      s.mem.lookup "recent_tweets" := by
  unfold FetchNewsActivity.execute
  rw [runActivity_snd]
  unfold FetchNewsActivity.executeBody
  refine eBind_pres _ _ rfl ?_
  intro trigger_type s1 h1
  refine eBind_pres _ _ h1 ?_
  intro trigger_context s2 h2
  refine eBind_pres _ _ h2 ?_
  intro topics s3 h3
  refine eBind_pres _ _ h3 ?_
  intro ok s4 h4
  split
  · exact h4
  · refine eBind_pres _ _ h4 ?_
    intro all_articles s5 h5
    refine eBind_pres _ _ h5 ?_
    intro relevant0 s6 h6
    refine eBind_pres _ _ h6 ?_
    intro relevant s7 h7
    refine eBind_pres _ _ ((store_articles_pres relevant s7).trans h7) ?_
    intro _ s8 h8
    refine eBind_pres _ _ ?_ ?_
    · split
      · refine eBind_pres _ _ ((prep_conv_pres relevant trigger_context s8).trans h8) ?_
        intro _ s9 h9
        exact h9
      · split
        · refine eBind_pres _ _ ((prep_social_pres relevant s8).trans h8) ?_
          intro _ s9 h9
          exact h9
        · exact h8
    · intro actions s10 h10
      exact h10

/-- _get_recent_tweets never touches recent_tweets (it only reads it). -/
theorem grt_pres (env : Env) (hours : Rat) (s : EffState) :
    ((PersonalizedCaregiverSupportActivity.get_recent_tweets env hours s).2).mem.lookup
      "recent_tweets" = s.mem.lookup "recent_tweets" := by
  unfold PersonalizedCaregiverSupportActivity.get_recent_tweets
  rw [catchDefault_snd]
  unfold PersonalizedCaregiverSupportActivity.getRecentTweetsBody
  refine eBind_pres _ _ rfl ?_
  intro rt0 s1 h1
  refine eBind_pres _ _ h1 ?_
  intro tweets s2 h2
  exact h2

/-- Claim C8 as amended: PersonalizedCaregiverSupportActivity.execute
never writes the recent_tweets dedup key — for every environment,
shared_data and state the binding of recent_tweets after execute equals
the binding before, so a completed run records no fresh-timestamp record
for the next invocation to find. -/
theorem caregiver_support_never_updates_recent_tweets :
    ∀ (env : Env) (sd : SharedData) (s : EffState),
      ((PersonalizedCaregiverSupportActivity.execute env sd s).2).mem.lookup
        "recent_tweets" = s.mem.lookup "recent_tweets" := by
  intro env sd s
  unfold PersonalizedCaregiverSupportActivity.execute
  rw [runActivity_snd]
  unfold PersonalizedCaregiverSupportActivity.executeBody
  refine eBind_pres _ _ (grt_pres env 4 s) ?_
  intro recent s1 h1
  refine eBind_pres _ _ h1 ?_
  intro tooSoon s2 h2
  split
  · exact h2
  · refine eBind_pres _ _ h2 ?_
    intro ok s3 h3
    split
    · exact h3
    · refine eBind_pres _ _ h3 ?_
      intro past_emotion s4 h4
      refine eBind_pres _ _ h4 ?_
      intro chat_response s5 h5
      refine eBind_pres _ _ h5 ?_
      intro ok2 s6 h6
      split
      · exact h6
      · refine eBind_pres _ _ h6 ?_
        intro scenario s7 h7
        refine eBind_pres _ _ h7 ?_
        intro image_result s8 h8
        refine eBind_pres _ _ h8 ?_
        intro image_url s9 h9
        refine eBind_pres _ _ h9 ?_
        intro ok3 s10 h10
        split
        · exact h10
        · refine eBind_pres _ _ h10 ?_
          intro resource_topic s11 h11
          refine eBind_pres _ _ h11 ?_
          intro cid s12 h12
          refine eBind_pres _ _ h12 ?_
          intro _ s13 h13
          refine eBind_pres _ _ ((fetch_news_pres env _ s13).trans h13) ?_
          intro recent_articles s14 h14
          refine eBind_pres _ _ h14 ?_
          intro resource_response s15 h15
          refine eBind_pres _ _ ?_ ?_
          · split
            · refine eBind_pres _ _ h15 ?_
              intro resource_image s16 h16
              exact h16
            · exact h15
          · intro resource_image_url s17 h17
            exact h17

/-- Counterexample to C8 as stated: with every skill available, execute
proceeds past the dedup check and completes successfully (no skipped
flag), yet memory afterwards holds no recent_tweets record at all, and
an immediately following invocation again does not skip. -/
theorem caregiver_support_no_fresh_record_counterexample :
    ((PersonalizedCaregiverSupportActivity.execute envHappy (some []) (stOf [])).1.success
      = true) ∧
    ((PersonalizedCaregiverSupportActivity.execute envHappy (some []) (stOf [])).1.data.dget
      "skipped" = .ok Val.none) ∧
    (((PersonalizedCaregiverSupportActivity.execute envHappy (some [])
        (stOf [])).2).mem.lookup "recent_tweets" = Option.none) ∧
    ((PersonalizedCaregiverSupportActivity.execute envHappy (some [])
        ((PersonalizedCaregiverSupportActivity.execute envHappy (some [])
          (stOf [])).2)).1.data.dget "skipped" = .ok Val.none) :=
  ⟨rfl, rfl, rfl, rfl⟩

/-- The fresh one-element promotion record stored by
_queue_for_social_sharing at a concrete input. -/
def articleNew : Val :=
  .dict [("title", .str "NT"), ("url", .str "nu"), ("category", .str "Resources")]

/-- The concrete promotion content accompanying articleNew. -/
def contentNew : Val :=
  .dict [("tweet_text", .str "tw"), ("url", .str "nu"),
         ("hashtags", .list [.str "#A"]), ("image_url", .str "img")]

/-- Counterexample to C9 as stated: with an article already queued under
social_share_queue, _queue_for_social_sharing stores a fresh one-element
list — the prior record is gone rather than preserved. -/
theorem social_share_queue_store_replaces_counterexample :
    ((PromoteGiveCareContentActivity.queue_for_social_sharing envHappy articleNew contentNew
        (stOf [("social_share_queue", .list [article0])])).2.mem.lookup "social_share_queue"
      = some (.list [.dict
          [("content", .str "tw nu #A"), ("title", .str "NT"), ("url", .str "nu"),
           ("image_url", .str "img"), ("category", .str "Resources"),
           ("queued_at", .num 1000000), ("type", .str "givecare_promotion")]])) ∧
    article0 ≠ .dict
          [("content", .str "tw nu #A"), ("title", .str "NT"), ("url", .str "nu"),
           ("image_url", .str "img"), ("category", .str "Resources"),
           ("queued_at", .num 1000000), ("type", .str "givecare_promotion")] := by
  constructor
  · rfl
  · simp [article0]

/-- Joining embedded strings is string intercalation. -/
theorem joinParts_strs (sep : String) (hs : List String) :
    joinParts sep (hs.map Val.str) = .ok (String.intercalate sep hs) := by
  unfold joinParts
  have : (hs.map Val.str).mapM (fun p =>
      match p with
      | Val.str s => Except.ok s
      | _ => Except.error "TypeError: sequence item expected str instance") = .ok hs := by
    induction hs with
    | nil => rfl
    | cons h t ih =>
        rw [List.map_cons, List.mapM_cons, ih]
        rfl
  rw [this]
  rfl

/-- Claim C9 as amended: both writers of social_share_queue REPLACE the
queue instead of appending to it — _queue_for_social_sharing stores
exactly the fresh one-element list whatever the queue held before, and
_prepare_social_content stores exactly its top-three shareable articles
whenever there are any. -/
theorem social_share_queue_store_replaces :
    (∀ (env : Env) (s : EffState) (a c : List (String × Val))
       (twt purl ttl aurl cat : Val) (hs : List String),
       dlookup c "tweet_text" = some twt →
       dlookup c "url" = some purl →
       dlookup c "hashtags" = some (.list (hs.map Val.str)) →
       dlookup a "title" = some ttl →
       dlookup a "url" = some aurl →
       dlookup a "category" = some cat →
       ((PromoteGiveCareContentActivity.queue_for_social_sharing env (.dict a) (.dict c)
          s).2).mem.lookup "social_share_queue" =
         some (.list [.dict
           [("content", .str (twt.pyStr ++ " " ++ purl.pyStr ++ " " ++
              String.intercalate " " hs)),
            ("title", ttl), ("url", aurl),
            ("image_url", (dlookup c "image_url").getD .none), ("category", cat),
            ("queued_at", .num env.now), ("type", .str "givecare_promotion")]])) ∧
    (∀ (articles : List Val) (s : EffState) (sharable : List Val),
       FetchNewsActivity.shareFilter articles = .ok sharable →
       sharable ≠ [] →
       ((FetchNewsActivity.prepare_social_content articles s).2).mem.lookup
         "social_share_queue" = some (.list (sharable.take 3))) := by
  constructor
  · intro env s a c twt purl ttl aurl cat hs h1 h2 h3 h4 h5 h6
    simp only [PromoteGiveCareContentActivity.queue_for_social_sharing,
      eBind, liftE, memStoreE, Val.item, Val.dget, Val.dgetD, h1, h2, h3, h4, h5, h6,
      Val.iterate, joinParts_strs, dlookup]
    simp only [dlookup] at h1 h2 h3 h4 h5 h6
    simp [h1, h2, h3, h4, h5, h6, joinParts_strs, Memory.lookup_store]
  · intro articles s sharable hf hne
    simp only [FetchNewsActivity.prepare_social_content, catchDefault, eBind, liftE,
      memStoreE, eret, hf]
    simp [hne, Memory.lookup_store]

/-- Witness for the amended C9: the concrete promotion record replaces a
queued article, and a one-article shareable list is stored as the whole
queue. -/
theorem social_share_queue_store_replaces_witness :
    (((PromoteGiveCareContentActivity.queue_for_social_sharing envHappy articleNew
        contentNew (stOf [("social_share_queue", .list [article0])])).2).mem.lookup
      "social_share_queue" = some (.list [.dict
        [("content", .str "tw nu #A"), ("title", .str "NT"), ("url", .str "nu"),
         ("image_url", .str "img"), ("category", .str "Resources"),
         ("queued_at", .num 1000000), ("type", .str "givecare_promotion")]])) ∧
    (((FetchNewsActivity.prepare_social_content
        [.dict [("relevance_score", .num 1), ("categories", .list [.str "resources"])]]
        (stOf [("social_share_queue", .list [article0])])).2).mem.lookup
      "social_share_queue" = some (.list
        [.dict [("relevance_score", .num 1), ("categories", .list [.str "resources"])]])) :=
  ⟨social_share_queue_store_replaces.1 envHappy
      (stOf [("social_share_queue", .list [article0])])
      [("title", .str "NT"), ("url", .str "nu"), ("category", .str "Resources")]
      [("tweet_text", .str "tw"), ("url", .str "nu"),
       ("hashtags", .list [.str "#A"]), ("image_url", .str "img")]
      (.str "tw") (.str "nu") (.str "NT") (.str "nu") (.str "Resources") ["#A"]
      rfl rfl rfl rfl rfl rfl,
   social_share_queue_store_replaces.2
      [.dict [("relevance_score", .num 1), ("categories", .list [.str "resources"])]]
      (stOf [("social_share_queue", .list [article0])])
      [.dict [("relevance_score", .num 1), ("categories", .list [.str "resources"])]]
      (by
        have h810 : ((1 : Rat) ≥ 8/10) = True := by norm_num
        simp [FetchNewsActivity.shareFilter, Val.item, dlookup, Val.asNum, Val.iterate,
          valEqStr, h810, Bind.bind, Except.bind, Pure.pure, Except.pure])
      (by simp)⟩

/-- Witness for C10: a fresh 50-quota instance after one successful
generation has counter 1 ≤ 50; and an instance whose counter has reached
its quota of 0 fails immediately. -/
theorem image_generation_quota_invariant_witness :
    (0 ≤ (runOps [(envHappy, .genOp "p" (1024, 1024) "png" Val.none Val.none Val.none)]
        (ImageGenerationSkill.make true 50 ["png", "jpg"])).generations_count ∧
     (runOps [(envHappy, .genOp "p" (1024, 1024) "png" Val.none Val.none Val.none)]
        (ImageGenerationSkill.make true 50 ["png", "jpg"])).generations_count ≤ 50) ∧
    ((ImageGenerationSkill.generate_image envHappy
        ⟨true, 0, ["png"], 0, true, some "k"⟩ "p" (1024, 1024) "png"
        Val.none Val.none Val.none).1.dget "success" = .ok (.bool false)) :=
  ⟨image_generation_quota_invariant.1
      [(envHappy, .genOp "p" (1024, 1024) "png" Val.none Val.none Val.none)]
      true 50 ["png", "jpg"] (by omega),
   image_generation_quota_invariant.2.2 envHappy
      ⟨true, 0, ["png"], 0, true, some "k"⟩ "p" (1024, 1024) "png"
      Val.none Val.none Val.none (by decide)⟩

end Orb

namespace Orb

/-- The shape the spec requires of every returned ActivityResult: either
success=True with no error, or success=False with an error message. -/
def okShape (r : ActivityResult) : Prop :=
  (r.success = true ∧ r.error = Option.none) ∨
  (r.success = false ∧ r.error.isSome = true)

/-- Every normally-returned result of an effectful body is well-shaped. -/
def bodyOk (c : EffR ActivityResult) : Prop :=
  ∀ r s', c = (.ok r, s') → okShape r

/-- Sequencing preserves bodyOk: if every continuation is well-shaped so
is the bind, since a raising prefix never reaches a normal return. -/
theorem bodyOk_eBind {α : Type} (x : EffR α) (f : α → EffState → EffR ActivityResult)
    (hf : ∀ a s, bodyOk (f a s)) : bodyOk (eBind x f) := by
  obtain ⟨ex, sx⟩ := x
  cases ex with
  | error e =>
      intro r s' h
      injection h with h1 h2
      cases h1
  | ok a => exact hf a sx

/-- Returning success_result is well-shaped. -/
theorem bodyOk_success (d : Val) (s : EffState) :
    bodyOk (eret (ActivityResult.success_result d) s) := by
  intro r s' h
  injection h with h1 h2
  injection h1 with h3
  rw [← h3]
  left
  exact ⟨rfl, rfl⟩

/-- Returning error_result is well-shaped. -/
theorem bodyOk_error (e : String) (s : EffState) :
    bodyOk (eret (ActivityResult.error_result e) s) := by
  intro r s' h
  injection h with h1 h2
  injection h1 with h3
  rw [← h3]
  right
  exact ⟨rfl, rfl⟩

/-- Raising never returns normally, so it is vacuously well-shaped. -/
theorem bodyOk_eraise (e : String) (s : EffState) :
    bodyOk (eraise e s : EffR ActivityResult) := by
  intro r s' h
  injection h with h1 h2
  cases h1

/-- A literal success=True result with no error is well-shaped. -/
theorem bodyOk_mk (data mdata : Val) (s : EffState) :
    bodyOk (eret ⟨true, data, Option.none, mdata⟩ s) := by
  intro r s' h
  injection h with h1 h2
  injection h1 with h3
  rw [← h3]
  left
  exact ⟨rfl, rfl⟩

/-- Every normal return of the post_a_tweet body is well-shaped. -/
theorem postTweet_bodyOk (env : Env) (sd : SharedData) (s : EffState) :
    bodyOk (PostTweetActivity.executeBody env sd s) := by
  unfold PostTweetActivity.executeBody
  repeat' first
    | apply bodyOk_success
    | apply bodyOk_error
    | apply bodyOk_eraise
    | apply bodyOk_mk
    | (apply bodyOk_eBind; intro a s)
    | split

/-- Every normal return of the fetch_news body is well-shaped. -/
theorem fetchNews_bodyOk (env : Env) (sd : SharedData) (s : EffState) :
    bodyOk (FetchNewsActivity.executeBody env sd s) := by
  unfold FetchNewsActivity.executeBody
  repeat' first
    | apply bodyOk_success
    | apply bodyOk_error
    | apply bodyOk_eraise
    | apply bodyOk_mk
    | (apply bodyOk_eBind; intro a s)
    | split

/-- Every normal return of the caregiver_support body is well-shaped. -/
theorem pcs_bodyOk (env : Env) (sd : SharedData) (s : EffState) :
    bodyOk (PersonalizedCaregiverSupportActivity.executeBody env sd s) := by
  unfold PersonalizedCaregiverSupportActivity.executeBody
  repeat' first
    | apply bodyOk_success
    | apply bodyOk_error
    | apply bodyOk_eraise
    | apply bodyOk_mk
    | (apply bodyOk_eBind; intro a s)
    | split

/-- Every normal return of the caregiver_checkin body is well-shaped. -/
theorem checkin_bodyOk (env : Env) (sd : SharedData) (s : EffState) :
    bodyOk (PersonalizedCaregiverCheckin.executeBody env sd s) := by
  unfold PersonalizedCaregiverCheckin.executeBody
  repeat' first
    | apply bodyOk_success
    | apply bodyOk_error
    | apply bodyOk_eraise
    | apply bodyOk_mk
    | (apply bodyOk_eBind; intro a s)
    | split

/-- Every normal return of the emotional_checkins body is well-shaped. -/
theorem emotionalCheckins_bodyOk (env : Env) (sd : SharedData) (s : EffState) :
    bodyOk (PersonalizedEmotionalCheckinsActivity.executeBody env sd s) := by
  unfold PersonalizedEmotionalCheckinsActivity.executeBody
  repeat' first
    | apply bodyOk_success
    | apply bodyOk_error
    | apply bodyOk_eraise
    | apply bodyOk_mk
    | (apply bodyOk_eBind; intro a s)
    | split

/-- Every normal return of the emotional_support body is well-shaped. -/
theorem emotionalSupport_bodyOk (env : Env) (sd : SharedData) (s : EffState) :
    bodyOk (PersonalizedEmotionalSupportActivity.executeBody env sd s) := by
  unfold PersonalizedEmotionalSupportActivity.executeBody
  repeat' first
    | apply bodyOk_success
    | apply bodyOk_error
    | apply bodyOk_eraise
    | apply bodyOk_mk
    | (apply bodyOk_eBind; intro a s)
    | split

/-- Every normal return of the draw body is well-shaped. -/
theorem draw_bodyOk (env : Env) (sd : SharedData) (s : EffState) :
    bodyOk (DrawActivity.executeBody env sd s) := by
  unfold DrawActivity.executeBody
  repeat' first
    | apply bodyOk_success
    | apply bodyOk_error
    | apply bodyOk_eraise
    | apply bodyOk_mk
    | (apply bodyOk_eBind; intro a s)
    | split
    | dsimp only []

/-- Every normal return of the post_linkedin body is well-shaped. -/
theorem linkedin_bodyOk (env : Env) (sd : SharedData) (s : EffState) :
    bodyOk (PostLinkedInActivity.executeBody env sd s) := by
  unfold PostLinkedInActivity.executeBody
  repeat' first
    | apply bodyOk_success
    | apply bodyOk_error
    | apply bodyOk_eraise
    | apply bodyOk_mk
    | (apply bodyOk_eBind; intro a s)
    | split

/-- Every normal return of the promote_givecare_content body is
well-shaped. -/
theorem promote_bodyOk (env : Env) (sd : SharedData) (s : EffState) :
    bodyOk (PromoteGiveCareContentActivity.executeBody env sd s) := by
  unfold PromoteGiveCareContentActivity.executeBody
  repeat' first
    | apply bodyOk_success
    | apply bodyOk_error
    | apply bodyOk_eraise
    | apply bodyOk_mk
    | (apply bodyOk_eBind; intro a s)
    | split
    | dsimp only []

/-- The boundary result is well-shaped whenever every ok-result of the
body is. -/
theorem runActivity_ok (body : EffState → EffR ActivityResult) (s : EffState)
    (hb : bodyOk (body s)) : okShape (runActivity body s).1 := by
  unfold runActivity
  split
  next r s2 hbs => exact hb r s2 hbs
  next e s2 hbs => right; exact ⟨rfl, rfl⟩

/-- A body that raises e makes the boundary return error_result e. -/
theorem runActivity_catch (body : EffState → EffR ActivityResult) (s : EffState)
    (e : String) (s' : EffState) (h : body s = (.error e, s')) :
    runActivity body s = (ActivityResult.error_result e, s') := by
  unfold runActivity
  rw [h]

/-- Claim C1: for every activity class in the repository and every input
shared_data (including None or a malformed mapping), execute never raises:
every exception arising in the body is caught at the activity boundary,
execute returns an ActivityResult that is either success=True with no
error or success=False with an error message, and when the body raises e
the returned ActivityResult is exactly error_result e carrying that
message. -/
theorem activities_never_raise (env : Env) (sd : SharedData) (s : EffState) :
    (okShape (PostTweetActivity.execute env sd s).1 ∧
      ∀ e s', PostTweetActivity.executeBody env sd s = (.error e, s') →
        PostTweetActivity.execute env sd s = (ActivityResult.error_result e, s')) ∧
    (okShape (FetchNewsActivity.execute env sd s).1 ∧
      ∀ e s', FetchNewsActivity.executeBody env sd s = (.error e, s') →
        FetchNewsActivity.execute env sd s = (ActivityResult.error_result e, s')) ∧
    (okShape (PersonalizedCaregiverSupportActivity.execute env sd s).1 ∧
      ∀ e s', PersonalizedCaregiverSupportActivity.executeBody env sd s = (.error e, s') →
        PersonalizedCaregiverSupportActivity.execute env sd s = (ActivityResult.error_result e, s')) ∧
    (okShape (PersonalizedCaregiverCheckin.execute env sd s).1 ∧
      ∀ e s', PersonalizedCaregiverCheckin.executeBody env sd s = (.error e, s') →
        PersonalizedCaregiverCheckin.execute env sd s = (ActivityResult.error_result e, s')) ∧
    (okShape (PersonalizedEmotionalCheckinsActivity.execute env sd s).1 ∧
      ∀ e s', PersonalizedEmotionalCheckinsActivity.executeBody env sd s = (.error e, s') →
        PersonalizedEmotionalCheckinsActivity.execute env sd s = (ActivityResult.error_result e, s')) ∧
    (okShape (PersonalizedEmotionalSupportActivity.execute env sd s).1 ∧
      ∀ e s', PersonalizedEmotionalSupportActivity.executeBody env sd s = (.error e, s') →
        PersonalizedEmotionalSupportActivity.execute env sd s = (ActivityResult.error_result e, s')) ∧
    (okShape (DrawActivity.execute env sd s).1 ∧
      ∀ e s', DrawActivity.executeBody env sd s = (.error e, s') →
        DrawActivity.execute env sd s = (ActivityResult.error_result e, s')) ∧
    (okShape (PostLinkedInActivity.execute env sd s).1 ∧
      ∀ e s', PostLinkedInActivity.executeBody env sd s = (.error e, s') →
        PostLinkedInActivity.execute env sd s = (ActivityResult.error_result e, s')) ∧
    (okShape (PromoteGiveCareContentActivity.execute env sd s).1 ∧
      ∀ e s', PromoteGiveCareContentActivity.executeBody env sd s = (.error e, s') →
        PromoteGiveCareContentActivity.execute env sd s = (ActivityResult.error_result e, s')) := by
  refine ⟨⟨?_, ?_⟩, ⟨?_, ?_⟩, ⟨?_, ?_⟩, ⟨?_, ?_⟩, ⟨?_, ?_⟩, ⟨?_, ?_⟩, ⟨?_, ?_⟩, ⟨?_, ?_⟩, ⟨?_, ?_⟩⟩
  · exact runActivity_ok _ s (postTweet_bodyOk env sd s)
  · exact fun e s' h => runActivity_catch _ s e s' h
  · exact runActivity_ok _ s (fetchNews_bodyOk env sd s)
  · exact fun e s' h => runActivity_catch _ s e s' h
  · exact runActivity_ok _ s (pcs_bodyOk env sd s)
  · exact fun e s' h => runActivity_catch _ s e s' h
  · exact runActivity_ok _ s (checkin_bodyOk env sd s)
  · exact fun e s' h => runActivity_catch _ s e s' h
  · exact runActivity_ok _ s (emotionalCheckins_bodyOk env sd s)
  · exact fun e s' h => runActivity_catch _ s e s' h
  · exact runActivity_ok _ s (emotionalSupport_bodyOk env sd s)
  · exact fun e s' h => runActivity_catch _ s e s' h
  · exact runActivity_ok _ s (draw_bodyOk env sd s)
  · exact fun e s' h => runActivity_catch _ s e s' h
  · exact runActivity_ok _ s (linkedin_bodyOk env sd s)
  · exact fun e s' h => runActivity_catch _ s e s' h
  · exact runActivity_ok _ s (promote_bodyOk env sd s)
  · exact fun e s' h => runActivity_catch _ s e s' h

/-- An environment in which x_api_skill was never registered, so the
registry attribute lookup in post_a_tweet raises. -/
def envNoX : Env :=
  { envHappy with xApiRegistered := false }

/-- Concrete instance of C1: with x_api_skill unregistered the
post_a_tweet body raises an AttributeError, and execute catches it and
returns exactly error_result of that message. -/
theorem activities_never_raise_witness :
    PostTweetActivity.executeBody envNoX Option.none (stOf []) =
      (.error "AttributeError: no skill named x_api_skill is registered", stOf []) ∧
    PostTweetActivity.execute envNoX Option.none (stOf []) =
      (ActivityResult.error_result
        "AttributeError: no skill named x_api_skill is registered", stOf []) :=
  ⟨rfl, (activities_never_raise envNoX Option.none (stOf [])).1.2
    "AttributeError: no skill named x_api_skill is registered" (stOf []) rfl⟩

end Orb
